import Mathlib

/-!
# LookingGlass: the frame publisher (`host/Service.cpp`) and the OBS client (`obs/lg.c`)

A shallow embedding of the two source files.  Stateful code is written as
functions from a state record (and a record of what the collaborators answer
during the call) to a result and a new state.  Calls into collaborators that a
property has to count are appended to a log kept in the state.

Machine arithmetic that the source fixes is kept explicit: `dataOffset` is a
`uint64_t`, `dataSize` an `unsigned int`, the pixels are `uint32_t`.
-/

namespace LookingGlass

/-! ## `host/Service.cpp` -/

/-- Constants of `common/KVMGFXHeader.h`, which is not part of the sources:
`sizeof(KVMGFXHeader)`, `KVMGFX_HEADER_MAGIC` and `KVMGFX_HEADER_VERSION`. -/
structure HeaderConsts where
  hdrSize : Nat
  magic   : List Nat
  version : Nat

/-- The fields of `KVMGFXHeader` that `Service.cpp` reads or writes. -/
structure KVMGFXHeader where
  magic     : List Nat
  version   : Nat
  guestID   : Nat
  hostID    : Nat
  frameType : Nat
  width     : Nat
  height    : Nat
  stride    : Nat
  dataPos   : Nat
  dataLen   : Nat
  mouseX    : Int
  mouseY    : Int
deriving DecidableEq, Repr

/-- The result fields of `FrameInfo` filled in by `ICapture::GrabFrame`. -/
structure FrameInfo where
  width   : Nat
  height  : Nat
  stride  : Nat
  outSize : Nat
deriving DecidableEq, Repr

/-- Calls that `Service` makes into its collaborators. -/
inductive SvcEvent where
  | closeHandle (h : Nat)
  | ivshmemInit
  | ivshmemDeInit
  | captureDeInit (dev : Nat)
  | createVectorEvent (vector : Nat)
  | grabFrame (buffer bufferSize : Nat)
  | resetEvent (h : Option Nat)
  | ringDoorbell (hostID door : Nat)
deriving DecidableEq, Repr

/-- The members of `Service`, the header at the start of the shared region, and
the log of collaborator calls.  `INVALID_HANDLE_VALUE` and `NULL` are `none`. -/
structure Service where
  m_initialized : Bool
  m_readyEvent  : Option Nat
  m_capture     : Option Nat
  m_memory      : Option Nat
  m_frameIndex  : Nat
  header        : KVMGFXHeader
  log           : List SvcEvent
deriving DecidableEq, Repr

/-- The state built by `Service::Service()`, over whatever the shared region holds. -/
def Service.fresh (hdr : KVMGFXHeader) : Service :=
  { m_initialized := false
    m_readyEvent  := none
    m_capture     := none
    m_memory      := none
    m_frameIndex  := 0
    header        := hdr
    log           := [] }

/-- `Service::DeInitialize`. -/
def Service.DeInitialize (s : Service) : Service :=
  let s1 : Service :=
    match s.m_readyEvent with
    | some h => { s with log := s.log ++ [SvcEvent.closeHandle h] }
    | none   => s
  let s2 : Service := { s1 with m_memory := none, log := s1.log ++ [SvcEvent.ivshmemDeInit] }
  let s3 : Service :=
    match s2.m_capture with
    | some dev => { s2 with m_capture := none, log := s2.log ++ [SvcEvent.captureDeInit dev] }
    | none     => s2
  { s3 with m_initialized := false }

/-- What the IVSHMEM device answers during one `Service::Initialize`. -/
structure InitEnv where
  ivshmemOk : Bool
  size      : Nat
  memory    : Option Nat
  event     : Option Nat
  peerID    : Nat

/-- `Service::Initialize`. -/
def Service.Initialize (K : HeaderConsts) (captureDevice : Option Nat) (env : InitEnv)
    (s : Service) : Bool × Service :=
  let s0 : Service := if s.m_initialized then s.DeInitialize else s
  let s1 : Service := { s0 with m_capture := captureDevice, log := s0.log ++ [SvcEvent.ivshmemInit] }
  if !env.ivshmemOk then (false, s1.DeInitialize)
  else if env.size < K.hdrSize then (false, s1.DeInitialize)
  else
    let s2 : Service := { s1 with m_memory := env.memory }
    match env.memory with
    | none => (false, s2.DeInitialize)
    | some _ =>
      let s3 : Service :=
        { s2 with m_readyEvent := env.event, log := s2.log ++ [SvcEvent.createVectorEvent 0] }
      match env.event with
      | none => (false, s3.DeInitialize)
      | some _ =>
        let hostID := s3.header.hostID
        let hdr : KVMGFXHeader :=
          { magic := K.magic, version := K.version, guestID := env.peerID, hostID := hostID
            frameType := 0, width := 0, height := 0, stride := 0
            dataPos := 0, dataLen := 0, mouseX := 0, mouseY := 0 }
        (true, { s3 with header := hdr, m_initialized := true })

/-- The slot offset of `Service::Process`:
`dataOffset = sizeof(KVMGFXHeader) + m_frameIndex * GetMaxFrameSize()` followed by
`dataOffset = (dataOffset + 0xF) & ~0xF`, in `uint64_t`; `~0xF` is the `int` -16,
which converts to `0xFFFFFFFFFFFFFFF0`. -/
def dataOffsetOf (hdrSize frameIndex maxFrameSize : Nat) : Nat :=
  let dataOffset := (hdrSize + frameIndex * maxFrameSize) % 2 ^ 64
  ((dataOffset + 0xF) % 2 ^ 64) &&& 0xFFFFFFFFFFFFFFF0

/-- `available = m_ivshmem->GetSize() - sizeof(KVMGFXHeader)` in `size_t`. -/
def availableOf (size hdrSize : Nat) : Nat :=
  (size % 2 ^ 64 + 2 ^ 64 - hdrSize % 2 ^ 64) % 2 ^ 64

/-- Results of `WaitForSingleObject`, by the cases of the `switch`. -/
inductive WaitResult where
  | WAIT_ABANDONED
  | WAIT_OBJECT_0
  | WAIT_TIMEOUT
  | WAIT_FAILED
  | unknown
deriving DecidableEq, Repr

/-- The `while (!eventDone)` loop over the results of the successive one-second
waits: `some true` when the event was signalled, `some false` when the loop
returns `false`, `none` when every wait supplied timed out (still waiting). -/
def waitLoop : List WaitResult → Option Bool
  | [] => none
  | WaitResult.WAIT_ABANDONED :: _ => some false
  | WaitResult.WAIT_OBJECT_0 :: _  => some true
  | WaitResult.WAIT_TIMEOUT :: rest => waitLoop rest
  | WaitResult.WAIT_FAILED :: _    => some false
  | WaitResult.unknown :: _        => some false

/-- The step `if (++m_frameIndex == 2) m_frameIndex = 0;`. -/
def nextSlot (frameIndex : Nat) : Nat :=
  if frameIndex + 1 = 2 then 0 else frameIndex + 1

/-- What the collaborators answer during one `Service::Process`: the region size,
the capture backend (`GetMaxFrameSize`, `GetFrameType`, `GrabFrame` as a function
of the buffer offset and `bufferSize` it is handed), the waits on the ready
event, `GetCursorPos` and `RingDoorbell`. -/
structure ProcessEnv where
  size         : Nat
  maxFrameSize : Nat
  frameType    : Nat
  grabFrame    : Nat → Nat → Option FrameInfo
  waits        : List WaitResult
  cursorX      : Int
  cursorY      : Int
  doorbell     : Bool

/-- `Service::Process`.  The result is `some b` when the call returns `b` and
`none` when it is still in the wait loop after all the waits of `env`. -/
def Service.Process (K : HeaderConsts) (env : ProcessEnv) (s : Service) :
    Option Bool × Service :=
  if !s.m_initialized then (some false, s)
  else
    let dataOffset := dataOffsetOf K.hdrSize s.m_frameIndex env.maxFrameSize
    let available := availableOf env.size K.hdrSize
    if (dataOffset + env.maxFrameSize) % 2 ^ 64 > available then (some false, s)
    else
      let s1 : Service :=
        { s with header := { s.header with frameType := env.frameType, dataLen := 0 } }
      let bufferSize := availableOf env.size K.hdrSize
      let s2 : Service := { s1 with log := s1.log ++ [SvcEvent.grabFrame dataOffset bufferSize] }
      match env.grabFrame dataOffset bufferSize with
      | none => (some false, { s2 with header := { s2.header with dataLen := 0 } })
      | some frame =>
        match waitLoop env.waits with
        | none => (none, s2)
        | some false => (some false, s2)
        | some true =>
          let hdr : KVMGFXHeader :=
            { s2.header with
              width := frame.width, height := frame.height, stride := frame.stride
              dataPos := dataOffset, dataLen := frame.outSize
              mouseX := env.cursorX, mouseY := env.cursorY }
          let s3 : Service :=
            { s2 with
              header := hdr
              log := s2.log ++ [SvcEvent.resetEvent s2.m_readyEvent,
                                SvcEvent.ringDoorbell hdr.hostID 0] }
          if !env.doorbell then (some false, s3)
          else
            (some true, { s3 with m_frameIndex := nextSlot s3.m_frameIndex })

/-- One call of a run of `Service::Process`: what the collaborators answered,
the slot index the call started from, its result and the state it left. -/
structure ProcessCall where
  env    : ProcessEnv
  slot   : Nat
  result : Option Bool
  after  : Service

/-- A sequence of `Service::Process` calls, one per element of the list.  A call
that never leaves the wait loop is the last one of the run. -/
def Service.run (K : HeaderConsts) : List ProcessEnv → Service → List ProcessCall
  | [], _ => []
  | env :: rest, s =>
    let r := s.Process K env
    { env := env, slot := s.m_frameIndex, result := r.1, after := r.2 } ::
      (match r.1 with
       | none   => []
       | some _ => Service.run K rest r.2)

/-- The slot indices used by the calls of a run that returned `true`, in order. -/
def publishedSlots (calls : List ProcessCall) : List Nat :=
  calls.filterMap (fun c => if c.result = some true then some c.slot else none)

/-! ## `obs/lg.c` -/

/-- `LGState`. -/
inductive LGState where
  | STATE_STOPPED
  | STATE_OPEN
  | STATE_STARTING
  | STATE_RUNNING
  | STATE_STOPPING
deriving DecidableEq, Repr

/-- `FrameType` of `common/KVMFR.h`, by the cases `lgVideoTick` tells apart. -/
inductive FrameType where
  | FRAME_TYPE_BGRA
  | FRAME_TYPE_RGBA
  | FRAME_TYPE_RGBA10
  | FRAME_TYPE_RGBA16F
  | other (n : Nat)
deriving DecidableEq, Repr

/-- The `gs_color_format` values that `lg.c` uses. -/
inductive gs_color_format where
  | GS_BGRA
  | GS_RGBA
  | GS_R10G10B10A2
  | GS_RGBA16F
deriving DecidableEq, Repr

/-- `CursorType` of `common/KVMFR.h`, by the cases `pointerThread` tells apart. -/
inductive CursorType where
  | CURSOR_TYPE_COLOR
  | CURSOR_TYPE_MONOCHROME
  | CURSOR_TYPE_MASKED_COLOR
  | other (n : Nat)
deriving DecidableEq, Repr

/-- `LGMP_STATUS`, by the cases `lg.c` tells apart. -/
inductive LGMP_STATUS where
  | LGMP_OK
  | LGMP_ERR_QUEUE_EMPTY
  | other (n : Nat)
deriving DecidableEq, Repr

/-- The fields of `KVMFRCursor` that `lg.c` uses.  The declaration is in
`common/KVMFR.h`, outside the sources; `width`, `height` and `pitch` are
`uint32_t` values, and `lg.c` forms their products in `unsigned int`. -/
structure KVMFRCursor where
  x      : Int
  y      : Int
  type   : CursorType
  width  : Nat
  height : Nat
  pitch  : Nat
deriving DecidableEq, Repr

/-- The fields of `KVMFRFrame` that `lg.c` uses. -/
structure KVMFRFrame where
  formatVer : Nat
  type      : FrameType
  width     : Nat
  height    : Nat
  pitch     : Nat
  offset    : Nat
deriving DecidableEq, Repr

/-- The fields of `KVMFR` (the session descriptor) that `lgUpdate` checks. -/
structure KVMFR where
  magic   : List Nat
  version : Nat
deriving DecidableEq, Repr

/-- Constants of `common/KVMFR.h`: `sizeof(KVMFR)`, `sizeof(udata->magic)`,
`KVMFR_MAGIC` and `KVMFR_VERSION`. -/
structure KVMFRConsts where
  sizeofKVMFR   : Nat
  sizeofMagic   : Nat
  KVMFR_MAGIC   : List Nat
  KVMFR_VERSION : Nat

/-- `struct gs_rect`. -/
structure gs_rect where
  x  : Int
  y  : Int
  cx : Int
  cy : Int
deriving DecidableEq, Repr

/-- Which of the two textures of the plugin a renderer call is about. -/
inductive Tex where
  | frame
  | cursor
deriving DecidableEq, Repr

/-- Which of the two LGMP queues or semaphores a call is about. -/
inductive Chan where
  | frame
  | pointer
deriving DecidableEq, Repr

/-- Calls that `lg.c` makes into OBS, LGMP, IVSHMEM and pthreads. -/
inductive LGEvent where
  | semWait (c : Chan)
  | semPost (c : Chan)
  | enterGraphics
  | leaveGraphics
  | textureCreate (t : Tex) (width height : Nat) (format : gs_color_format)
  | textureDestroy (t : Tex) (handle : Nat)
  | textureMap (handle : Nat)
  | textureUnmap (handle : Nat)
  | advanceToLast
  | clientProcess (c : Chan)
  | messageDone (c : Chan)
  | framebufferRead (dst dstpitch height width bpp pitch : Nat)
  | ivshmemOpenDev
  | ivshmemClose
  | lgmpClientInit
  | lgmpClientSessionInit
  | lgmpClientFree
  | threadCreate (c : Chan)
  | threadJoin (c : Chan)
deriving DecidableEq, Repr

/-- `LGPlugin`, with the log of collaborator calls.  `cursorData` is the decoded
cursor image as `uint32_t` words; `NULL` textures are `none`. -/
structure LGPlugin where
  state         : LGState
  shmFile       : Option String
  formatVer     : Nat
  width         : Nat
  height        : Nat
  type          : FrameType
  bpp           : Nat
  texture       : Option Nat
  texData       : Nat
  linesize      : Nat
  cursorMono    : Bool
  cursorTex     : Option Nat
  cursorRect    : gs_rect
  cursorVisible : Bool
  cursor        : KVMFRCursor
  cursorVer     : Nat
  cursorCurVer  : Nat
  cursorSize    : Nat
  cursorData    : Nat → Nat
  log           : List LGEvent

/-- Append collaborator calls to the log. -/
def LGPlugin.emit (this : LGPlugin) (es : List LGEvent) : LGPlugin :=
  { this with log := this.log ++ es }

/-- `deinit`.  The wait for a session in `STATE_STARTING` to finish starting
is taken to end, after which the workers are joined. -/
def deinit (this : LGPlugin) : LGPlugin :=
  let t1 : LGPlugin :=
    match this.state with
    | LGState.STATE_STARTING | LGState.STATE_RUNNING | LGState.STATE_STOPPING =>
      { (this.emit [LGEvent.threadJoin Chan.frame, LGEvent.threadJoin Chan.pointer,
                    LGEvent.lgmpClientFree, LGEvent.ivshmemClose])
        with state := LGState.STATE_STOPPED }
    | LGState.STATE_OPEN => this.emit [LGEvent.lgmpClientFree, LGEvent.ivshmemClose]
    | LGState.STATE_STOPPED => this
  let t2 : LGPlugin := { t1 with shmFile := none }
  let t3 : LGPlugin :=
    match t2.texture with
    | some h =>
      { (t2.emit [LGEvent.enterGraphics, LGEvent.textureDestroy Tex.frame h,
                  LGEvent.textureUnmap h, LGEvent.leaveGraphics])
        with texture := none }
    | none => t2
  let t4 : LGPlugin :=
    match t3.cursorTex with
    | some h =>
      { (t3.emit [LGEvent.enterGraphics, LGEvent.textureDestroy Tex.cursor h,
                  LGEvent.textureUnmap h, LGEvent.leaveGraphics])
        with cursorTex := none }
    | none => t3
  { t4 with state := LGState.STATE_STOPPED }

/-- What the collaborators answer during one `lgUpdate`. -/
structure UpdateEnv where
  shmFile     : String
  openOk      : Bool
  clientInit  : LGMP_STATUS
  sessionInit : LGMP_STATUS
  udataSize   : Nat
  udata       : KVMFR

/-- `memcmp(a, b, n) != 0` on byte arrays. -/
def memcmpNe (a b : List Nat) (n : Nat) : Bool :=
  decide (a.take n ≠ b.take n)

/-- `lgUpdate`. -/
def lgUpdate (K : KVMFRConsts) (env : UpdateEnv) (this : LGPlugin) : LGPlugin :=
  let t0 : LGPlugin := deinit this
  let t1 : LGPlugin := { (t0.emit [LGEvent.ivshmemOpenDev]) with shmFile := some env.shmFile }
  if !env.openOk then t1
  else
    let t2 : LGPlugin := { (t1.emit [LGEvent.lgmpClientInit]) with state := LGState.STATE_OPEN }
    if env.clientInit ≠ LGMP_STATUS.LGMP_OK then t2
    else
      let t3 : LGPlugin := t2.emit [LGEvent.lgmpClientSessionInit]
      if env.sessionInit ≠ LGMP_STATUS.LGMP_OK then t3
      else if env.udataSize ≠ K.sizeofKVMFR ||
              memcmpNe env.udata.magic K.KVMFR_MAGIC K.sizeofMagic ||
              env.udata.version ≠ K.KVMFR_VERSION then t3
      else
        { (t3.emit [LGEvent.threadCreate Chan.frame, LGEvent.threadCreate Chan.pointer])
          with state := LGState.STATE_STARTING }

/-- Number of worker threads created in a log. -/
def workersCreated (log : List LGEvent) : Nat :=
  log.countP (fun e => match e with
    | LGEvent.threadCreate _ => true
    | _ => false)

/-! ### Cursor shape decoding (`pointerThread`) -/

/-- `allocCursorData`: the buffer only grows; `fresh` is the memory that
`bmalloc` hands out. -/
def allocCursorData (this : LGPlugin) (size : Nat) (fresh : Nat → Nat) : LGPlugin :=
  if this.cursorSize ≥ size then this
  else { this with cursorSize := size, cursorData := fresh }

/-- The `uint32_t` at word index `i` of a byte payload (little endian). -/
def readU32 (data : Nat → Nat) (i : Nat) : Nat :=
  data (4 * i) % 256 + 256 * (data (4 * i + 1) % 256) +
    65536 * (data (4 * i + 2) % 256) + 16777216 * (data (4 * i + 3) % 256)

/-- The pixel transform of the masked-colour loop:
`(*s & ~0xFF000000) | (*s & 0xFF000000 ? 0x0 : 0xFF000000)`. -/
def maskedColorPixel (s : Nat) : Nat :=
  (s &&& 0x00FFFFFF) ||| (if s &&& 0xFF000000 ≠ 0 then 0x0 else 0xFF000000)

/-- The loop `for (i = 0; i < dataSize / sizeof(uint32_t); ++i, ++s, ++d)` of the
`CURSOR_TYPE_MASKED_COLOR` case, over `n = dataSize / sizeof(uint32_t)` pixels. -/
def decodeMaskedColor (s : Nat → Nat) (n : Nat) (d : Nat → Nat) : Nat → Nat :=
  (List.range n).foldl (fun d i => Function.update d i (maskedColorPixel (s i))) d

/-- `memcpy(this->cursorData, data, dataSize)` seen on the `uint32_t` words of
the destination: whole words are replaced, and the low bytes of a last partial
word. -/
def memcpyWords (data : Nat → Nat) (dataSize : Nat) (d : Nat → Nat) : Nat → Nat :=
  fun i =>
    if i < dataSize / 4 then readU32 data i
    else if i = dataSize / 4 ∧ dataSize % 4 ≠ 0 then
      readU32 data i % 256 ^ (dataSize % 4) + d i / 256 ^ (dataSize % 4) * 256 ^ (dataSize % 4)
    else d i

/-- A store `d[i] = v` of one `uint32_t` through `this->cursorData`, a buffer of
`size` bytes: `none` when the word lies outside the buffer (in C the behaviour
is then undefined). -/
def storeWord (size : Nat) (d : Nat → Nat) (i v : Nat) : Option (Nat → Nat) :=
  if 4 * i + 4 ≤ size then some (Function.update d i v) else none

/-- `andMask` of the monochrome loop at column `x`, row `y`; the product
`cursor->pitch * y` is formed in `uint32_t`. -/
def monoAndMask (data : Nat → Nat) (pitch x y : Nat) : Nat :=
  let srcAnd := (pitch * y) % 2 ^ 32 + x / 8
  let mask := 0x80 >>> (x % 8)
  if (data srcAnd % 256) &&& mask ≠ 0 then 0xFFFFFFFF else 0xFF000000

/-- `xorMask` of the monochrome loop at column `x`, row `y`; the products
`cursor->pitch * y` and `cursor->pitch * hheight` are formed in `uint32_t`. -/
def monoXorMask (data : Nat → Nat) (pitch hheight x y : Nat) : Nat :=
  let srcAnd := (pitch * y) % 2 ^ 32 + x / 8
  let srcXor := srcAnd + (pitch * hheight) % 2 ^ 32
  let mask := 0x80 >>> (x % 8)
  if (data srcXor % 256) &&& mask ≠ 0 then 0x00FFFFFF else 0x00000000

/-- The inner loop `for (x = 0; x < cursor->width; ++x)` of the monochrome case,
writing into a buffer of `size` bytes.  The two indices are formed in
`uint32_t`.  The state is `none` once a store has fallen outside the buffer. -/
def decodeMonoRow (data : Nat → Nat) (size width pitch hheight y : Nat)
    (d : Option (Nat → Nat)) : Option (Nat → Nat) :=
  (List.range width).foldl
    (fun o x =>
      o.bind (fun d =>
        (storeWord size d ((y * width + x) % 2 ^ 32) (monoAndMask data pitch x y)).bind
          (fun d1 =>
            storeWord size d1 ((y * width + x + width * hheight) % 2 ^ 32)
              (monoXorMask data pitch hheight x y))))
    d

/-- The outer loop `for (y = 0; y < hheight; ++y)` of the monochrome case, on a
buffer of `size` bytes: `none` when a store falls outside the buffer. -/
def decodeMonochrome (data : Nat → Nat) (size width height pitch : Nat) (d : Nat → Nat) :
    Option (Nat → Nat) :=
  let hheight := height / 2
  (List.range hheight).foldl (fun o y => decodeMonoRow data size width pitch hheight y o)
    (some d)

/-- The `switch (cursor->type)` of `pointerThread`: size the buffer and decode.
`dataSize` is an `unsigned int`; the buffer holds `cursorSize` bytes.  The
result is `none` when the monochrome loops store outside the buffer; the
masked-colour loop and the `memcpy` stay within `dataSize` bytes. -/
def decodeShape (this : LGPlugin) (cursor : KVMFRCursor) (data fresh : Nat → Nat) :
    Option LGPlugin :=
  match cursor.type with
  | CursorType.CURSOR_TYPE_MASKED_COLOR =>
    let dataSize := (cursor.height * cursor.pitch) % 2 ^ 32
    let t := allocCursorData this dataSize fresh
    some { t with cursorData := decodeMaskedColor (readU32 data) (dataSize / 4) t.cursorData }
  | CursorType.CURSOR_TYPE_COLOR =>
    let dataSize := (cursor.height * cursor.pitch) % 2 ^ 32
    let t := allocCursorData this dataSize fresh
    some { t with cursorData := memcpyWords data dataSize t.cursorData }
  | CursorType.CURSOR_TYPE_MONOCHROME =>
    let dataSize := (cursor.height * cursor.width * 4) % 2 ^ 32
    let t := allocCursorData this dataSize fresh
    (decodeMonochrome data t.cursorSize cursor.width cursor.height cursor.pitch
        t.cursorData).map
      (fun d => { t with cursorData := d })
  | CursorType.other _ => some this

/-- The body of `if (msg.udata & CURSOR_FLAG_SHAPE)` in `pointerThread`;
`none` when the decoder stores outside the cursor buffer. -/
def pointerShape (this : LGPlugin) (cursor : KVMFRCursor) (data fresh : Nat → Nat) :
    Option LGPlugin :=
  let t0 := this.emit [LGEvent.semWait Chan.pointer]
  (decodeShape t0 cursor data fresh).map (fun t1 =>
    let t2 : LGPlugin :=
      { t1 with
        cursor := { t1.cursor with type := cursor.type, width := cursor.width,
                                   height := cursor.height }
        cursorVer := (t1.cursorVer + 1) % 2 ^ 32 }
    t2.emit [LGEvent.semPost Chan.pointer])

/-- A message of the pointer queue: the three flags of `msg.udata`, the
`KVMFRCursor` at `msg.mem` and the payload bytes that follow it. -/
structure PointerMsg where
  visible  : Bool
  shape    : Bool
  position : Bool
  cursor   : KVMFRCursor
  data     : Nat → Nat

/-- One iteration of the `pointerThread` loop on which `lgmpClientProcess`
returned a message; `none` when the shape decoder stores outside the cursor
buffer. -/
def pointerMessage (this : LGPlugin) (msg : PointerMsg) (fresh : Nat → Nat) :
    Option LGPlugin :=
  let t0 : LGPlugin := { this with cursorVisible := msg.visible }
  let o1 : Option LGPlugin :=
    if msg.shape then pointerShape t0 msg.cursor msg.data fresh else some t0
  o1.map (fun t1 =>
    let t2 : LGPlugin :=
      if msg.position then
        { t1 with cursor := { t1.cursor with x := msg.cursor.x, y := msg.cursor.y } }
      else t1
    t2.emit [LGEvent.messageDone Chan.pointer])

/-! ### `lgVideoTick` -/

/-- What the collaborators answer during one `lgVideoTick`: the results of
`gs_texture_create` for the cursor and for the frame texture, of
`lgmpClientAdvanceToLast` and `lgmpClientProcess` with the frame at `msg.mem`,
and the pointer and line size given by the two `gs_texture_map` calls. -/
structure TickEnv where
  cursorTexCreate : Option Nat
  advance         : LGMP_STATUS
  process         : LGMP_STATUS
  frame           : KVMFRFrame
  frameTexCreate  : Option Nat
  map1            : Nat × Nat
  map2            : Nat × Nat

/-- The conversion of a `uint32_t` to the `int` members of `struct gs_rect`
(two's complement). -/
def toInt32 (n : Nat) : Int :=
  if n % 2 ^ 32 < 2 ^ 31 then ((n % 2 ^ 32 : Nat) : Int)
  else ((n % 2 ^ 32 : Nat) : Int) - 2 ^ 32

/-- The block `if (cursorVer != this->cursorCurVer)` of `lgVideoTick`.  The
`uint32_t` width and height of the cursor are stored into the `int` members
`cx` and `cy`. -/
def tickCursor (env : TickEnv) (cursorVer : Nat) (this : LGPlugin) : LGPlugin :=
  let t0 := this.emit [LGEvent.semWait Chan.pointer, LGEvent.enterGraphics]
  let t1 : LGPlugin :=
    match t0.cursorTex with
    | some h => { (t0.emit [LGEvent.textureDestroy Tex.cursor h]) with cursorTex := none }
    | none => t0
  let t2 : LGPlugin :=
    match t1.cursor.type with
    | CursorType.CURSOR_TYPE_MASKED_COLOR | CursorType.CURSOR_TYPE_COLOR =>
      { (t1.emit [LGEvent.textureCreate Tex.cursor t1.cursor.width t1.cursor.height
                    gs_color_format.GS_BGRA])
        with cursorMono := false, cursorTex := env.cursorTexCreate }
    | CursorType.CURSOR_TYPE_MONOCHROME =>
      { (t1.emit [LGEvent.textureCreate Tex.cursor t1.cursor.width t1.cursor.height
                    gs_color_format.GS_BGRA])
        with cursorMono := true, cursorTex := env.cursorTexCreate }
    | CursorType.other _ => t1
  let t3 := t2.emit [LGEvent.leaveGraphics]
  let t4 : LGPlugin :=
    { t3 with
      cursorCurVer := cursorVer
      cursorRect := { t3.cursorRect with cx := toInt32 t3.cursor.width,
                                         cy := toInt32 t3.cursor.height } }
  t4.emit [LGEvent.semPost Chan.pointer]

/-- The `switch (this->type)` choosing the texture format; `this->bpp` has been
set to 4 before and is raised to 8 for `FRAME_TYPE_RGBA16F`.  `none` is the
`default` case. -/
def frameFormat : FrameType → Option (gs_color_format × Nat)
  | FrameType.FRAME_TYPE_BGRA    => some (gs_color_format.GS_BGRA, 4)
  | FrameType.FRAME_TYPE_RGBA    => some (gs_color_format.GS_RGBA, 4)
  | FrameType.FRAME_TYPE_RGBA10  => some (gs_color_format.GS_R10G10B10A2, 4)
  | FrameType.FRAME_TYPE_RGBA16F => some (gs_color_format.GS_RGBA16F, 8)
  | FrameType.other _            => none

/-- The step `if (this->texture) { gs_texture_unmap; gs_texture_destroy;
this->texture = NULL; }` inside the texture block of `lgVideoTick`. -/
def dropTexture (this : LGPlugin) : LGPlugin :=
  match this.texture with
  | some h =>
    { (this.emit [LGEvent.textureUnmap h, LGEvent.textureDestroy Tex.frame h])
      with texture := none }
  | none => this

/-- The rest of the texture block of `lgVideoTick`: choose the format, create
the texture and map it.  The flag is `false` when `lgVideoTick` returns from
inside the block (unknown frame type, or `gs_texture_create` failed). -/
def createTexture (env : TickEnv) (this : LGPlugin) : Bool × LGPlugin :=
  let t2 : LGPlugin := { this with bpp := 4 }
  match frameFormat t2.type with
  | none => (false, t2.emit [LGEvent.semPost Chan.frame, LGEvent.leaveGraphics])
  | some (format, bpp) =>
    let t3 : LGPlugin :=
      { (t2.emit [LGEvent.textureCreate Tex.frame t2.width t2.height format])
        with bpp := bpp, texture := env.frameTexCreate }
    match env.frameTexCreate with
    | none => (false, t3.emit [LGEvent.semPost Chan.frame, LGEvent.leaveGraphics])
    | some h =>
      (true, { (t3.emit [LGEvent.textureMap h, LGEvent.leaveGraphics])
               with texData := env.map1.1, linesize := env.map1.2 })

/-- The block `if (!this->texture || this->formatVer != frame->formatVer)` of
`lgVideoTick`.  The flag is `false` when `lgVideoTick` returns from inside the
block. -/
def tickTexture (env : TickEnv) (this : LGPlugin) : Bool × LGPlugin :=
  if this.texture = none ∨ this.formatVer ≠ env.frame.formatVer then
    let t0 : LGPlugin :=
      { (this.emit [LGEvent.enterGraphics]) with
        formatVer := env.frame.formatVer, width := env.frame.width
        height := env.frame.height, type := env.frame.type }
    createTexture env (dropTexture t0)
  else (true, this)

/-- The final `if (this->texture) ... else ...` of `lgVideoTick`. -/
def tickCopy (env : TickEnv) (this : LGPlugin) : LGPlugin :=
  let frame := env.frame
  match this.texture with
  | some h =>
    { (this.emit [LGEvent.framebufferRead this.texData this.linesize frame.height frame.width
                    this.bpp frame.pitch,
                  LGEvent.messageDone Chan.frame, LGEvent.semPost Chan.frame,
                  LGEvent.enterGraphics, LGEvent.textureUnmap h, LGEvent.textureMap h,
                  LGEvent.leaveGraphics])
      with texData := env.map2.1, linesize := env.map2.2 }
  | none => this.emit [LGEvent.messageDone Chan.frame, LGEvent.semPost Chan.frame]

/-- The part of `lgVideoTick` from `KVMFRFrame * frame = msg.mem` on, reached
when `lgmpClientProcess` returned `LGMP_OK`. -/
def tickFrame (env : TickEnv) (this : LGPlugin) : LGPlugin :=
  let r := tickTexture env this
  if r.1 then tickCopy env r.2 else r.2

/-- `lgVideoTick`. -/
def lgVideoTick (env : TickEnv) (this : LGPlugin) : LGPlugin :=
  if this.state ≠ LGState.STATE_RUNNING then this
  else
    let t0 := this.emit [LGEvent.semWait Chan.frame]
    if t0.state ≠ LGState.STATE_RUNNING then t0.emit [LGEvent.semPost Chan.frame]
    else
      let t1 : LGPlugin :=
        { t0 with cursorRect := { t0.cursorRect with x := t0.cursor.x, y := t0.cursor.y } }
      let cursorVer := t1.cursorVer
      let t2 : LGPlugin := if cursorVer ≠ t1.cursorCurVer then tickCursor env cursorVer t1 else t1
      let t3 := t2.emit [LGEvent.advanceToLast]
      if env.advance ≠ LGMP_STATUS.LGMP_OK ∧ env.advance ≠ LGMP_STATUS.LGMP_ERR_QUEUE_EMPTY then
        t3.emit [LGEvent.semPost Chan.frame]
      else
        let t4 := t3.emit [LGEvent.clientProcess Chan.frame]
        if env.process ≠ LGMP_STATUS.LGMP_OK then
          if env.process = LGMP_STATUS.LGMP_ERR_QUEUE_EMPTY then
            t4.emit [LGEvent.semPost Chan.frame]
          else
            { t4 with state := LGState.STATE_STOPPING }.emit [LGEvent.semPost Chan.frame]
        else tickFrame env t4

/-- Number of `lgmpClientMessageDone` calls on the frame queue in a log. -/
def frameMessagesDone (log : List LGEvent) : Nat :=
  log.count (LGEvent.messageDone Chan.frame)

/-- The state of `lgVideoTick` at the point where `lgmpClientProcess` has
returned a frame message: the frame semaphore is held, the cursor texture has
been brought up to date and the queue has been advanced. -/
def tickReceived (env : TickEnv) (this : LGPlugin) : LGPlugin :=
  let t0 := this.emit [LGEvent.semWait Chan.frame]
  let t1 : LGPlugin :=
    { t0 with cursorRect := { t0.cursorRect with x := t0.cursor.x, y := t0.cursor.y } }
  let t2 : LGPlugin :=
    if t1.cursorVer ≠ t1.cursorCurVer then tickCursor env t1.cursorVer t1 else t1
  (t2.emit [LGEvent.advanceToLast]).emit [LGEvent.clientProcess Chan.frame]

/-- Number of `gs_texture_create` and `gs_texture_destroy` calls for the frame
texture in a log. -/
def frameTextureCalls (log : List LGEvent) : Nat :=
  log.countP (fun e => match e with
    | LGEvent.textureCreate Tex.frame _ _ _ => true
    | LGEvent.textureDestroy Tex.frame _ => true
    | _ => false)

/-! ### Sample inputs for the OBS client -/

/-- Constants of a KVMFR build: an 8-byte magic and version 5. -/
def sampleKVMFR : KVMFRConsts :=
  { sizeofKVMFR := 140, sizeofMagic := 8
    KVMFR_MAGIC := [75, 86, 77, 70, 82, 45, 45, 45], KVMFR_VERSION := 5 }

/-- A running session presenting 100x100 BGRA frames of format version 1
through texture 7. -/
def samplePlugin : LGPlugin :=
  { state := LGState.STATE_RUNNING, shmFile := none
    formatVer := 1, width := 100, height := 100, type := FrameType.FRAME_TYPE_BGRA, bpp := 4
    texture := some 7, texData := 4096, linesize := 400
    cursorMono := false, cursorTex := none
    cursorRect := { x := 0, y := 0, cx := 0, cy := 0 }, cursorVisible := false
    cursor := { x := 0, y := 0, type := CursorType.CURSOR_TYPE_COLOR, width := 0, height := 0,
                pitch := 0 }
    cursorVer := 0, cursorCurVer := 0, cursorSize := 0, cursorData := fun _ => 0
    log := [] }

/-- A session that has just left `STATE_STARTING` and has no texture yet. -/
def startedPlugin : LGPlugin :=
  { samplePlugin with texture := none, formatVer := 0, width := 0, height := 0 }

/-- A stopped plugin, as `lgCreate` leaves it before calling `lgUpdate`. -/
def stoppedPlugin : LGPlugin :=
  { startedPlugin with state := LGState.STATE_STOPPED }

/-- A tick on which the queue delivers `frame` and the renderer hands out
texture 8. -/
def sampleTick (frame : KVMFRFrame) (frameTexCreate : Option Nat) : TickEnv :=
  { cursorTexCreate := some 9, advance := LGMP_STATUS.LGMP_OK, process := LGMP_STATUS.LGMP_OK
    frame := frame, frameTexCreate := frameTexCreate, map1 := (8192, 800), map2 := (12288, 800) }

/-- An `lgUpdate` in which the device opens and the session is found, with the
given descriptor. -/
def sampleUpdate (udataSize : Nat) (udata : KVMFR) : UpdateEnv :=
  { shmFile := "", openOk := true, clientInit := LGMP_STATUS.LGMP_OK
    sessionInit := LGMP_STATUS.LGMP_OK, udataSize := udataSize, udata := udata }

/-- A payload given by its bytes; memory past them reads as 0. -/
def payload (bytes : List Nat) : Nat → Nat :=
  fun i => bytes.getD i 0

/-- A masked-colour shape of 2 rows of 8 bytes: four pixels. -/
def maskedCursor : KVMFRCursor :=
  { x := 0, y := 0, type := CursorType.CURSOR_TYPE_MASKED_COLOR, width := 2, height := 2, pitch := 8 }

/-- The pixels 0x00112233, 0x80445566, 0xFF000000, 0x00FFFFFF in little-endian bytes. -/
def maskedPayload : Nat → Nat :=
  payload [0x33, 0x22, 0x11, 0x00, 0x66, 0x55, 0x44, 0x80,
           0x00, 0x00, 0x00, 0xFF, 0xFF, 0xFF, 0xFF, 0x00]

/-- A monochrome shape 2 pixels wide and 2 rows high (one AND row, one XOR row)
with one byte per row. -/
def monoCursor : KVMFRCursor :=
  { x := 0, y := 0, type := CursorType.CURSOR_TYPE_MONOCHROME, width := 2, height := 2, pitch := 1 }

/-- AND row `10`, XOR row `01` (most significant bit first). -/
def monoPayload : Nat → Nat :=
  payload [0x80, 0x40]

/-- A monochrome shape of 32768 by 32768 pixels: `height * width * 4` is 2^32
and does not fit the `unsigned int dataSize`. -/
def bigMonoCursor : KVMFRCursor :=
  { x := 0, y := 0, type := CursorType.CURSOR_TYPE_MONOCHROME, width := 32768,
    height := 32768, pitch := 4096 }

/-- A monochrome shape one pixel wide and 4 rows high whose pitch is 2^31, so
that `pitch * hheight` is 2^32. -/
def wrapMonoCursor : KVMFRCursor :=
  { x := 0, y := 0, type := CursorType.CURSOR_TYPE_MONOCHROME, width := 1, height := 4,
    pitch := 2 ^ 31 }

/-- Message memory whose only non-zero byte is 0x80 at offset 2^31. -/
def wrapMonoPayload : Nat → Nat :=
  fun i => if i = 2 ^ 31 then 0x80 else 0

/-- A masked-colour shape of 0x40000001 rows of 4 bytes: `height * pitch` is
2^32 + 4. -/
def bigMaskedCursor : KVMFRCursor :=
  { x := 0, y := 0, type := CursorType.CURSOR_TYPE_MASKED_COLOR, width := 1,
    height := 0x40000001, pitch := 4 }

/-- Number of `gs_texture_create` and `gs_texture_destroy` calls for the cursor
texture in a log. -/
def cursorTextureCalls (log : List LGEvent) : Nat :=
  log.countP (fun e => match e with
    | LGEvent.textureCreate Tex.cursor _ _ _ => true
    | LGEvent.textureDestroy Tex.cursor _ => true
    | _ => false)

/-- The state of `lgVideoTick` after the block
`if (cursorVer != this->cursorCurVer)`, for a session that is running. -/
def tickCursorDone (env : TickEnv) (this : LGPlugin) : LGPlugin :=
  let t0 := this.emit [LGEvent.semWait Chan.frame]
  let t1 : LGPlugin :=
    { t0 with cursorRect := { t0.cursorRect with x := t0.cursor.x, y := t0.cursor.y } }
  if t1.cursorVer ≠ t1.cursorCurVer then tickCursor env t1.cursorVer t1 else t1

/-- The part of `lgVideoTick` from `lgmpClientAdvanceToLast` on. -/
def tickQueue (env : TickEnv) (t2 : LGPlugin) : LGPlugin :=
  let t3 := t2.emit [LGEvent.advanceToLast]
  if env.advance ≠ LGMP_STATUS.LGMP_OK ∧ env.advance ≠ LGMP_STATUS.LGMP_ERR_QUEUE_EMPTY then
    t3.emit [LGEvent.semPost Chan.frame]
  else
    let t4 := t3.emit [LGEvent.clientProcess Chan.frame]
    if env.process ≠ LGMP_STATUS.LGMP_OK then
      if env.process = LGMP_STATUS.LGMP_ERR_QUEUE_EMPTY then
        t4.emit [LGEvent.semPost Chan.frame]
      else
        { t4 with state := LGState.STATE_STOPPING }.emit [LGEvent.semPost Chan.frame]
    else tickFrame env t4

/-- Successive calls of `lgVideoTick`, one per element of the list, with no
pointer message in between. -/
def lgVideoTicks (envs : List TickEnv) (this : LGPlugin) : LGPlugin :=
  envs.foldl (fun t env => lgVideoTick env t) this

/-- The cursor texture and its bookkeeping are in `b` what they were in `a`, and
the log of `b` is the log of `a` followed by calls none of which creates or
destroys the cursor texture. -/
def CursorKept (a b : LGPlugin) : Prop :=
  b.cursorTex = a.cursorTex ∧ b.cursorMono = a.cursorMono ∧
  b.cursorCurVer = a.cursorCurVer ∧ b.cursorVer = a.cursorVer ∧
  b.cursorRect.cx = a.cursorRect.cx ∧ b.cursorRect.cy = a.cursorRect.cy ∧
  ∃ evs, b.log = a.log ++ evs ∧ cursorTextureCalls evs = 0

/-- The sample session after a monochrome 2x2 shape message: the cursor
version is one ahead of the version of the cursor texture. -/
def pendingPlugin : LGPlugin :=
  { samplePlugin with
    cursor := { x := 3, y := 4, type := CursorType.CURSOR_TYPE_MONOCHROME, width := 2,
                height := 2, pitch := 1 }
    cursorVer := 1, cursorTex := some 6 }

/-! ### Sample inputs for `Service` -/

/-- A header layout of 32 bytes. -/
def sampleConsts : HeaderConsts :=
  { hdrSize := 32, magic := [91, 91, 75, 86, 77], version := 3 }

/-- A region whose header was last written by a host with id 7. -/
def sampleHeader : KVMGFXHeader :=
  { magic := [], version := 0, guestID := 0, hostID := 7, frameType := 0
    width := 0, height := 0, stride := 0, dataPos := 0, dataLen := 0, mouseX := 0, mouseY := 0 }

/-- An IVSHMEM device of 1000 bytes that hands out event handle 5. -/
def sampleInit : InitEnv :=
  { ivshmemOk := true, size := 1000, memory := some 4096, event := some 5, peerID := 1 }

/-- A freshly constructed `Service` after a successful `Initialize`. -/
def sampleService : Service :=
  ((Service.fresh sampleHeader).Initialize sampleConsts (some 1) sampleInit).2

/-- A capture backend that fills the whole buffer it is handed. -/
def fillBuffer : Nat → Nat → Option FrameInfo :=
  fun _ bufferSize => some { width := 22, height := 11, stride := 88, outSize := bufferSize }

/-- A capture backend that writes a 5x5 frame of 100 bytes. -/
def smallFrame : Nat → Nat → Option FrameInfo :=
  fun _ _ => some { width := 5, height := 5, stride := 20, outSize := 100 }

/-- A capture backend whose `GrabFrame` fails. -/
def noFrame : Nat → Nat → Option FrameInfo :=
  fun _ _ => none

/-- One `Process` call on the 1000-byte region: the ready event is signalled
after one timed-out wait. -/
def sampleEnv (maxFrameSize : Nat) (grab : Nat → Nat → Option FrameInfo) (doorbell : Bool) :
    ProcessEnv :=
  { size := 1000, maxFrameSize := maxFrameSize, frameType := 1, grabFrame := grab
    waits := [WaitResult.WAIT_TIMEOUT, WaitResult.WAIT_OBJECT_0]
    cursorX := 10, cursorY := 20, doorbell := doorbell }

/-- A header layout of 40 bytes, not a multiple of 16. -/
def oddConsts : HeaderConsts :=
  { hdrSize := 40, magic := [91, 91, 75, 86, 77], version := 3 }

/-- A freshly constructed `Service` after a successful `Initialize` on the
40-byte header layout. -/
def oddService : Service :=
  ((Service.fresh sampleHeader).Initialize oddConsts (some 1) sampleInit).2

/-! ### Arithmetic of the slot offset -/

theorem and_alignMask (x : Nat) (hx : x < 2 ^ 64) :
    x &&& 0xFFFFFFFFFFFFFFF0 = x / 16 * 16 := by
  apply Nat.eq_of_testBit_eq
  intro i
  have h1 : (0xFFFFFFFFFFFFFFF0 : Nat) = 2 ^ 4 * (2 ^ 60 - 1) := by norm_num
  have h2 : x / 16 * 16 = 2 ^ 4 * (x >>> 4) := by
    rw [Nat.shiftRight_eq_div_pow]; norm_num [Nat.mul_comm]
  rw [Nat.testBit_and, h1, h2, Nat.testBit_mul_pow_two, Nat.testBit_mul_pow_two,
    Nat.testBit_two_pow_sub_one, Nat.testBit_shiftRight]
  by_cases h4 : 4 ≤ i
  · have e : 4 + (i - 4) = i := by omega
    simp only [ge_iff_le, h4, e, decide_True, Bool.true_and]
    by_cases h64 : i < 64
    · have : i - 4 < 60 := by omega
      simp [this]
    · have hf : x.testBit i = false := by
        apply Nat.testBit_lt_two_pow
        calc x < 2 ^ 64 := hx
          _ ≤ 2 ^ i := Nat.pow_le_pow_right (by norm_num) (by omega)
      simp [hf]
  · simp [h4]

theorem dataOffsetOf_eq (H i M : Nat) :
    dataOffsetOf H i M = (((H + i * M) % 2 ^ 64 + 15) % 2 ^ 64) / 16 * 16 := by
  unfold dataOffsetOf
  exact and_alignMask _ (Nat.mod_lt _ (by norm_num))

theorem dataOffsetOf_mod16 (H i M : Nat) : dataOffsetOf H i M % 16 = 0 := by
  rw [dataOffsetOf_eq]; omega

theorem dataOffsetOf_lt (H i M : Nat) : dataOffsetOf H i M < 2 ^ 64 := by
  rw [dataOffsetOf_eq]; omega

/-- Without wrap-around the offset is the sum rounded up to a multiple of 16. -/
theorem dataOffsetOf_nowrap (H i M : Nat) (h : H + i * M + 15 < 2 ^ 64) :
    dataOffsetOf H i M = (H + i * M + 15) / 16 * 16 := by
  rw [dataOffsetOf_eq]
  have e1 : (H + i * M) % 2 ^ 64 = H + i * M := Nat.mod_eq_of_lt (by omega)
  rw [e1, Nat.mod_eq_of_lt h]

/-! ### The steps of `Service::Process` -/

theorem DeInitialize_frameIndex (s : Service) :
    s.DeInitialize.m_frameIndex = s.m_frameIndex := by
  unfold Service.DeInitialize
  cases hE : s.m_readyEvent <;> cases hC : s.m_capture <;> simp [hC]

theorem Initialize_frameIndex (K : HeaderConsts) (dev : Option Nat) (ienv : InitEnv)
    (s : Service) : (s.Initialize K dev ienv).2.m_frameIndex = s.m_frameIndex := by
  unfold Service.Initialize
  by_cases hi : s.m_initialized = true <;>
    by_cases h1 : ienv.ivshmemOk = true <;>
    by_cases h2 : ienv.size < K.hdrSize <;>
    cases h3 : ienv.memory <;> cases h4 : ienv.event <;>
    simp [hi, h1, h2, DeInitialize_frameIndex]

/-- A call either returns `true`, advances the slot index cyclically and has
published the offset of the slot it started from, or leaves the index alone. -/
theorem Process_cases (K : HeaderConsts) (env : ProcessEnv) (s : Service) :
    ((s.Process K env).1 = some true ∧
      (s.Process K env).2.m_frameIndex = nextSlot s.m_frameIndex ∧
      (s.Process K env).2.header.dataPos
        = dataOffsetOf K.hdrSize s.m_frameIndex env.maxFrameSize) ∨
    ((s.Process K env).1 ≠ some true ∧
      (s.Process K env).2.m_frameIndex = s.m_frameIndex) := by
  unfold Service.Process
  dsimp only
  by_cases hi : s.m_initialized = true
  · rw [if_neg (by simp [hi])]
    by_cases hc : (dataOffsetOf K.hdrSize s.m_frameIndex env.maxFrameSize + env.maxFrameSize)
        % 2 ^ 64 > availableOf env.size K.hdrSize
    · rw [if_pos hc]; right; simp
    · rw [if_neg hc]
      split
      · right; simp
      · split
        · right; simp
        · right; simp
        · cases hd : env.doorbell
          · right; simp
          · left; simp
  · rw [if_pos (by simp [hi])]; right; simp

theorem nextSlot_lt (i : Nat) (h : i < 2) : nextSlot i < 2 ∧ nextSlot i = (i + 1) % 2 := by
  unfold nextSlot; split <;> omega

theorem publishedSlots_cons (c : ProcessCall) (cs : List ProcessCall) :
    publishedSlots (c :: cs) =
      if c.result = some true then c.slot :: publishedSlots cs else publishedSlots cs := by
  unfold publishedSlots
  by_cases h : c.result = some true <;> simp [List.filterMap_cons, h]

theorem run_slots (K : HeaderConsts) (envs : List ProcessEnv) :
    ∀ s : Service, s.m_frameIndex < 2 →
      publishedSlots (s.run K envs) =
        (List.range (publishedSlots (s.run K envs)).length).map
          (fun k => (s.m_frameIndex + k) % 2) := by
  induction envs with
  | nil => intro s _; simp [Service.run, publishedSlots]
  | cons env rest ih =>
    intro s hs
    rw [Service.run, publishedSlots_cons]
    rcases Process_cases K env s with ⟨ht, hidx, _⟩ | ⟨hf, hidx⟩
    · have hlt : (s.Process K env).2.m_frameIndex < 2 := by
        rw [hidx]; exact (nextSlot_lt _ hs).1
      have ih1 := ih (s.Process K env).2 hlt
      simp only [ht, if_true]
      rw [List.length_cons, List.range_succ_eq_map, List.map_cons, List.map_map]
      rw [ih1, List.length_map, List.length_range]
      congr 1
      · omega
      · apply List.map_congr_left
        intro k _
        simp only [Function.comp]
        rw [hidx, (nextSlot_lt _ hs).2]
        omega
    · cases hr : (s.Process K env).1 with
      | none => simp [publishedSlots]
      | some b =>
        have hb : b = false := by
          cases b
          · rfl
          · exact absurd hr hf
        subst hb
        have hlt : (s.Process K env).2.m_frameIndex < 2 := by rw [hidx]; exact hs
        have ih1 := ih (s.Process K env).2 hlt
        rw [hidx] at ih1
        simpa using ih1

theorem run_calls (K : HeaderConsts) (envs : List ProcessEnv) :
    ∀ s : Service, s.m_frameIndex < 2 →
      ∀ c ∈ s.run K envs,
        c.slot < 2 ∧ c.after.m_frameIndex < 2 ∧
        (c.result ≠ some true → c.after.m_frameIndex = c.slot) ∧
        (c.result = some true → c.after.m_frameIndex = (c.slot + 1) % 2 ∧
          c.after.header.dataPos = dataOffsetOf K.hdrSize c.slot c.env.maxFrameSize) := by
  induction envs with
  | nil => intro s _ c hc; simp [Service.run] at hc
  | cons env rest ih =>
    intro s hs c hc
    rw [Service.run] at hc
    have hstep : (s.Process K env).2.m_frameIndex < 2 := by
      rcases Process_cases K env s with ⟨_, hidx, _⟩ | ⟨_, hidx⟩
      · rw [hidx]; exact (nextSlot_lt _ hs).1
      · rw [hidx]; exact hs
    rcases List.mem_cons.mp hc with rfl | htail
    · refine ⟨hs, hstep, ?_, ?_⟩
      · intro hne
        rcases Process_cases K env s with ⟨ht, _, _⟩ | ⟨_, hidx⟩
        · exact absurd ht hne
        · exact hidx
      · intro heq
        rcases Process_cases K env s with ⟨_, hidx, hpos⟩ | ⟨hf, _⟩
        · refine ⟨?_, hpos⟩
          show (s.Process K env).2.m_frameIndex = (s.m_frameIndex + 1) % 2
          rw [hidx]; exact (nextSlot_lt _ hs).2
        · exact absurd heq hf
    · cases hr : (s.Process K env).1 with
      | none => simp [hr] at htail
      | some b =>
        simp only [hr] at htail
        exact ih _ hstep c htail

/-- What a call that returns `true` has published: the capacity check passed and
the descriptor holds the slot offset and the size of the frame that `GrabFrame`
returned for the buffer `(dataOffset, available)`. -/
theorem Process_true (K : HeaderConsts) (env : ProcessEnv) (s : Service)
    (htrue : (s.Process K env).1 = some true) :
    (dataOffsetOf K.hdrSize s.m_frameIndex env.maxFrameSize + env.maxFrameSize) % 2 ^ 64
      ≤ availableOf env.size K.hdrSize ∧
    ∃ frame, env.grabFrame (dataOffsetOf K.hdrSize s.m_frameIndex env.maxFrameSize)
        (availableOf env.size K.hdrSize) = some frame ∧
      (s.Process K env).2.header.dataPos
        = dataOffsetOf K.hdrSize s.m_frameIndex env.maxFrameSize ∧
      (s.Process K env).2.header.dataLen = frame.outSize := by
  unfold Service.Process at htrue ⊢
  dsimp only at htrue ⊢
  by_cases hi : s.m_initialized = true
  · rw [if_neg (by simp [hi])] at htrue ⊢
    by_cases hc : (dataOffsetOf K.hdrSize s.m_frameIndex env.maxFrameSize + env.maxFrameSize)
        % 2 ^ 64 > availableOf env.size K.hdrSize
    · rw [if_pos hc] at htrue; simp at htrue
    · rw [if_neg hc] at htrue ⊢
      refine ⟨Nat.not_lt.mp hc, ?_⟩
      cases hg : env.grabFrame (dataOffsetOf K.hdrSize s.m_frameIndex env.maxFrameSize)
          (availableOf env.size K.hdrSize) with
      | none => rw [hg] at htrue; simp at htrue
      | some frame =>
        rw [hg] at htrue
        refine ⟨frame, rfl, ?_⟩
        cases hw : waitLoop env.waits with
        | none => rw [hw] at htrue; simp at htrue
        | some b =>
          cases b with
          | false => rw [hw] at htrue; simp at htrue
          | true =>
            cases hd : env.doorbell with
            | false => rw [hw, hd] at htrue; simp at htrue
            | true => simp
  · rw [if_pos (by simp [hi])] at htrue; simp at htrue

/-- The bound that the capacity check does give: when the backend keeps
`outSize` within the maximum frame size it reports (and the sum does not wrap),
a published descriptor satisfies `dataPos + dataLen <= region size - sizeof(header)`. -/
theorem Process_within_maxFrameSize (K : HeaderConsts) (env : ProcessEnv) (s : Service)
    (hsize : K.hdrSize ≤ env.size) (hlt : env.size < 2 ^ 64)
    (hnw : dataOffsetOf K.hdrSize s.m_frameIndex env.maxFrameSize + env.maxFrameSize < 2 ^ 64)
    (hgrab : ∀ b n f, env.grabFrame b n = some f → f.outSize ≤ env.maxFrameSize)
    (htrue : (s.Process K env).1 = some true) :
    (s.Process K env).2.header.dataPos + (s.Process K env).2.header.dataLen
      ≤ env.size - K.hdrSize := by
  obtain ⟨hcap, frame, hg, hpos, hlen⟩ := Process_true K env s htrue
  have hout := hgrab _ _ _ hg
  rw [hpos, hlen]
  rw [Nat.mod_eq_of_lt hnw] at hcap
  have hav : availableOf env.size K.hdrSize = env.size - K.hdrSize := by
    unfold availableOf
    rw [Nat.mod_eq_of_lt hlt, Nat.mod_eq_of_lt (by omega : K.hdrSize < 2 ^ 64)]
    omega
  omega

theorem DeInitialize_readyEvent (s : Service) :
    s.DeInitialize.m_readyEvent = s.m_readyEvent := by
  unfold Service.DeInitialize
  cases hE : s.m_readyEvent <;> cases hC : s.m_capture <;> simp [hC, hE]

/-- Every `DeInitialize` on a `Service` holding a ready-event handle closes that
handle, and the handle is still held afterwards. -/
theorem DeInitialize_closes (s : Service) (h : Nat) (hE : s.m_readyEvent = some h) :
    s.DeInitialize.log.count (SvcEvent.closeHandle h)
      = s.log.count (SvcEvent.closeHandle h) + 1 ∧
    s.DeInitialize.m_readyEvent = some h := by
  refine ⟨?_, by rw [DeInitialize_readyEvent, hE]⟩
  unfold Service.DeInitialize
  cases hC : s.m_capture <;> simp [hE, hC, List.count_append]

/-! ### C1 -/

/-- C1 (as stated, refuted): with header size 32, slot 1 and a maximum frame size
of 2^64 - 40 the sum is 2^64 - 8, adding 0xF wraps round to 7 and the mask gives
offset 0, which is a multiple of 16 but lies below the sum it should round up. -/
theorem C1_counterexample :
    dataOffsetOf 32 1 (2 ^ 64 - 40) = 0 ∧
    (32 + 1 * (2 ^ 64 - 40)) % 2 ^ 64 = 2 ^ 64 - 8 ∧
    ¬ (dataOffsetOf 32 1 (2 ^ 64 - 40) ≥ (32 + 1 * (2 ^ 64 - 40)) % 2 ^ 64) := by
  have h : dataOffsetOf 32 1 (2 ^ 64 - 40) = 0 := by
    rw [dataOffsetOf_eq]; norm_num
  refine ⟨h, by norm_num, ?_⟩
  rw [h]; norm_num

/-- C1 (amended): for every header size, slot index and maximum frame size, the
offset computed by `Service::Process` is a multiple of 16; and whenever
`sizeof(header) + frameIndex * maxFrameSize + 0xF` stays within the 64-bit range,
the offset is at least that sum and no multiple of 16 at or above the sum is
smaller. -/
theorem C1_dataOffset_aligned (H i M : Nat) :
    dataOffsetOf H i M % 16 = 0 ∧
    (H + i * M + 0xF < 2 ^ 64 →
      H + i * M ≤ dataOffsetOf H i M ∧
      ∀ m : Nat, m % 16 = 0 → H + i * M ≤ m → dataOffsetOf H i M ≤ m) := by
  refine ⟨dataOffsetOf_mod16 H i M, ?_⟩
  intro h
  rw [dataOffsetOf_nowrap H i M h]
  refine ⟨by omega, ?_⟩
  intro m hm hle
  omega

theorem C1_dataOffset_aligned_witness :
    40 + 1 * 1000 + 0xF < 2 ^ 64 ∧
    dataOffsetOf 40 1 1000 = 1040 ∧
    dataOffsetOf 40 1 1000 % 16 = 0 ∧
    40 + 1 * 1000 ≤ dataOffsetOf 40 1 1000 ∧
    ∀ m : Nat, m % 16 = 0 → 40 + 1 * 1000 ≤ m → dataOffsetOf 40 1 1000 ≤ m :=
  ⟨by decide, by decide, (C1_dataOffset_aligned 40 1 1000).1,
    (C1_dataOffset_aligned 40 1 1000).2 (by decide)⟩

/-! ### C2 -/

/-- C2 (as stated, refuted): on the initialized sample service (32-byte header,
1000-byte region, slot 0 at offset 32) a backend reports a maximum frame size of
2^64 - 16.  `dataOffset + maxFrameSize` is 2^64 + 16, far above
`region size - sizeof(header) = 968`, but the `uint64_t` sum wraps to 16, the
capacity check passes, `GrabFrame` is called and `Process` returns `true` with
the slot index advanced to 1. -/
theorem C2_counterexample :
    sampleService.m_initialized = true ∧
    dataOffsetOf 32 0 (2 ^ 64 - 16) + (2 ^ 64 - 16) > 1000 - 32 ∧
    (sampleService.Process sampleConsts (sampleEnv (2 ^ 64 - 16) smallFrame true)).1
      = some true ∧
    (sampleService.Process sampleConsts (sampleEnv (2 ^ 64 - 16) smallFrame true)).2.m_frameIndex
      = 1 ∧
    (sampleService.Process sampleConsts (sampleEnv (2 ^ 64 - 16) smallFrame true)).2.log =
      sampleService.log ++ [SvcEvent.grabFrame 32 968, SvcEvent.resetEvent (some 5),
        SvcEvent.ringDoorbell 7 0] := by
  decide

/-- C2 (amended): for an initialized `Service` on a region of 64-bit size at
least `sizeof(header)` (what `Initialize` checked): if
`dataOffset + maxFrameSize > region size - sizeof(header)` and the sum stays
within the 64-bit range, then `Process` returns `false` and leaves the whole
state as it was (slot index, every header field and the log, so `GrabFrame` was
not called); and if `dataOffset + maxFrameSize <= region size - sizeof(header)`
the call goes past the capacity check: the next thing it does is to call
`GrabFrame` with the slot offset and `bufferSize = region size - sizeof(header)`. -/
theorem C2_capacity_check (K : HeaderConsts) (env : ProcessEnv) (s : Service)
    (hinit : s.m_initialized = true)
    (hsize : K.hdrSize ≤ env.size) (hlt : env.size < 2 ^ 64) :
    (dataOffsetOf K.hdrSize s.m_frameIndex env.maxFrameSize + env.maxFrameSize < 2 ^ 64 →
      dataOffsetOf K.hdrSize s.m_frameIndex env.maxFrameSize + env.maxFrameSize
        > env.size - K.hdrSize →
      s.Process K env = (some false, s)) ∧
    (dataOffsetOf K.hdrSize s.m_frameIndex env.maxFrameSize + env.maxFrameSize
        ≤ env.size - K.hdrSize →
      ∃ rest, (s.Process K env).2.log =
        s.log ++ SvcEvent.grabFrame (dataOffsetOf K.hdrSize s.m_frameIndex env.maxFrameSize)
          (env.size - K.hdrSize) :: rest) := by
  have hav : availableOf env.size K.hdrSize = env.size - K.hdrSize := by
    unfold availableOf
    rw [Nat.mod_eq_of_lt hlt, Nat.mod_eq_of_lt (by omega : K.hdrSize < 2 ^ 64)]
    omega
  constructor
  · intro hnw hc
    unfold Service.Process
    dsimp only
    rw [if_neg (by simp [hinit]), Nat.mod_eq_of_lt hnw, hav, if_pos hc]
  · intro hc
    have hnw : dataOffsetOf K.hdrSize s.m_frameIndex env.maxFrameSize + env.maxFrameSize
        < 2 ^ 64 := by omega
    unfold Service.Process
    dsimp only
    rw [if_neg (by simp [hinit]), Nat.mod_eq_of_lt hnw, hav, if_neg (Nat.not_lt.mpr hc)]
    split
    · exact ⟨[], by simp⟩
    · split
      · exact ⟨[], by simp⟩
      · exact ⟨[], by simp⟩
      · cases hd : env.doorbell
        · exact ⟨_, by simp; rfl⟩
        · exact ⟨_, by simp; rfl⟩

theorem C2_capacity_check_witness :
    (sampleService.m_initialized = true ∧ sampleConsts.hdrSize ≤ 1000 ∧ 1000 < 2 ^ 64) ∧
    dataOffsetOf 32 0 2000 + 2000 < 2 ^ 64 ∧
    dataOffsetOf 32 0 2000 + 2000 > 1000 - 32 ∧
    sampleService.Process sampleConsts (sampleEnv 2000 smallFrame true)
      = (some false, sampleService) ∧
    dataOffsetOf 32 0 100 + 100 ≤ 1000 - 32 ∧
    ∃ rest, (sampleService.Process sampleConsts (sampleEnv 100 smallFrame true)).2.log =
      sampleService.log ++ SvcEvent.grabFrame (dataOffsetOf 32 0 100) (1000 - 32) :: rest :=
  ⟨by decide, by decide, by decide,
    (C2_capacity_check sampleConsts (sampleEnv 2000 smallFrame true) sampleService
      (by decide) (by decide) (by decide)).1 (by decide) (by decide),
    by decide,
    (C2_capacity_check sampleConsts (sampleEnv 100 smallFrame true) sampleService
      (by decide) (by decide) (by decide)).2 (by decide)⟩

/-! ### C3 -/

/-- C3: starting from a freshly constructed `Service` that went through
`Initialize`, in every run of `Process` calls the slot indices of the calls that
return `true` are 0,1,0,1,... in order (the k-th of them, counted from 0, uses
slot `k % 2` and publishes that slot's offset); every call that does not return
`true` leaves the slot index unchanged; and the slot index is 0 or 1 before and
after every call. -/
theorem C3_slot_alternation (K : HeaderConsts) (hdr : KVMGFXHeader) (dev : Option Nat)
    (ienv : InitEnv) (envs : List ProcessEnv) :
    publishedSlots (((Service.fresh hdr).Initialize K dev ienv).2.run K envs) =
      (List.range
        (publishedSlots (((Service.fresh hdr).Initialize K dev ienv).2.run K envs)).length).map
        (fun k => k % 2) ∧
    ∀ c ∈ ((Service.fresh hdr).Initialize K dev ienv).2.run K envs,
      c.slot < 2 ∧ c.after.m_frameIndex < 2 ∧
      (c.result ≠ some true → c.after.m_frameIndex = c.slot) ∧
      (c.result = some true → c.after.m_frameIndex = (c.slot + 1) % 2 ∧
        c.after.header.dataPos = dataOffsetOf K.hdrSize c.slot c.env.maxFrameSize) := by
  have h0 : ((Service.fresh hdr).Initialize K dev ienv).2.m_frameIndex = 0 := by
    rw [Initialize_frameIndex]; rfl
  constructor
  · have h := run_slots K envs _ (by rw [h0]; decide :
      ((Service.fresh hdr).Initialize K dev ienv).2.m_frameIndex < 2)
    rw [h0] at h
    simpa using h
  · exact run_calls K envs _ (by rw [h0]; decide)

/-- Four calls on the sample service, the second with a failing capture and
the third with a failing doorbell: the three that return `true` use slots
0, 1, 0. -/
theorem run_sample :
    publishedSlots (sampleService.run sampleConsts
      [sampleEnv 100 smallFrame true, sampleEnv 100 noFrame true,
       sampleEnv 100 smallFrame false, sampleEnv 100 smallFrame true,
       sampleEnv 100 smallFrame true]) = [0, 1, 0] := by
  decide

/-! ### C4 -/

/-- C4 (the code at the failing input): on a 1000-byte region with a 32-byte
header, `Process` hands the backend the buffer at offset 32 with `bufferSize`
968, the whole of `region size - sizeof(header)`.  A backend that fills the
buffer it was handed keeps `outSize <= bufferSize`, `Process` returns `true`,
and the published descriptor has `dataPos + dataLen = 1000`, beyond 968. -/
theorem C4_bufferSize_overrun :
    (sampleService.Process sampleConsts (sampleEnv 100 fillBuffer true)).1 = some true ∧
    (sampleService.Process sampleConsts (sampleEnv 100 fillBuffer true)).2.log =
      sampleService.log ++ [SvcEvent.grabFrame 32 968, SvcEvent.resetEvent (some 5),
        SvcEvent.ringDoorbell 7 0] ∧
    (fillBuffer 32 968).map (fun f => decide (f.outSize ≤ 968)) = some true ∧
    (sampleService.Process sampleConsts (sampleEnv 100 fillBuffer true)).2.header.dataPos = 32 ∧
    (sampleService.Process sampleConsts (sampleEnv 100 fillBuffer true)).2.header.dataLen = 968 ∧
    ¬ ((sampleService.Process sampleConsts (sampleEnv 100 fillBuffer true)).2.header.dataPos +
        (sampleService.Process sampleConsts (sampleEnv 100 fillBuffer true)).2.header.dataLen
        ≤ 1000 - sampleConsts.hdrSize) := by
  decide

/-! ### C9 -/

/-- C9 (the code at the failing input): after a successful `Initialize` that
obtained event handle 5, the first `DeInitialize` closes handle 5 and leaves
`m_readyEvent` holding it; the second `DeInitialize` closes handle 5 again. -/
theorem C9_double_close :
    sampleService.m_initialized = true ∧
    sampleService.m_readyEvent = some 5 ∧
    sampleService.DeInitialize.log =
      sampleService.log ++
        [SvcEvent.closeHandle 5, SvcEvent.ivshmemDeInit, SvcEvent.captureDeInit 1] ∧
    sampleService.DeInitialize.m_readyEvent = some 5 ∧
    sampleService.DeInitialize.DeInitialize.log =
      sampleService.DeInitialize.log ++ [SvcEvent.closeHandle 5, SvcEvent.ivshmemDeInit] ∧
    sampleService.DeInitialize.DeInitialize.log.count (SvcEvent.closeHandle 5) = 2 := by
  decide

/-! ### C5 -/

theorem workersCreated_append (l₁ l₂ : List LGEvent) :
    workersCreated (l₁ ++ l₂) = workersCreated l₁ + workersCreated l₂ := by
  unfold workersCreated; exact List.countP_append _ l₁ l₂

theorem deinit_workersCreated (this : LGPlugin) :
    workersCreated (deinit this).log = workersCreated this.log := by
  unfold deinit
  cases hs : this.state <;> cases ht : this.texture <;> cases hc : this.cursorTex <;>
    simp [LGPlugin.emit, workersCreated_append, ht, hc] <;>
    simp [workersCreated]

/-- C5: `lgUpdate` leaves the session in `STATE_STARTING`, or creates a worker
thread, only if the descriptor has size `sizeof(KVMFR)`, its magic compares
equal to `KVMFR_MAGIC` over `sizeof(udata->magic)` bytes and its version equals
`KVMFR_VERSION`.  When the descriptor was obtained and its size, magic or version
differs, the state is `STATE_OPEN` and no worker thread was created; when all
three match, the state is `STATE_STARTING` and both workers were created. -/
theorem C5_descriptor_check (K : KVMFRConsts) (env : UpdateEnv) (this : LGPlugin) :
    (((lgUpdate K env this).state = LGState.STATE_STARTING ∨
        workersCreated (lgUpdate K env this).log ≠ workersCreated this.log) →
      env.udataSize = K.sizeofKVMFR ∧
      env.udata.magic.take K.sizeofMagic = K.KVMFR_MAGIC.take K.sizeofMagic ∧
      env.udata.version = K.KVMFR_VERSION) ∧
    (env.openOk = true → env.clientInit = LGMP_STATUS.LGMP_OK →
      env.sessionInit = LGMP_STATUS.LGMP_OK →
      (env.udataSize ≠ K.sizeofKVMFR ∨
        env.udata.magic.take K.sizeofMagic ≠ K.KVMFR_MAGIC.take K.sizeofMagic ∨
        env.udata.version ≠ K.KVMFR_VERSION) →
      (lgUpdate K env this).state = LGState.STATE_OPEN ∧
      workersCreated (lgUpdate K env this).log = workersCreated this.log) ∧
    (env.openOk = true → env.clientInit = LGMP_STATUS.LGMP_OK →
      env.sessionInit = LGMP_STATUS.LGMP_OK →
      env.udataSize = K.sizeofKVMFR →
      env.udata.magic.take K.sizeofMagic = K.KVMFR_MAGIC.take K.sizeofMagic →
      env.udata.version = K.KVMFR_VERSION →
      (lgUpdate K env this).state = LGState.STATE_STARTING ∧
      workersCreated (lgUpdate K env this).log = workersCreated this.log + 2) := by
  have hd := deinit_workersCreated this
  have hst : (deinit this).state = LGState.STATE_STOPPED := by
    unfold deinit; rfl
  by_cases h1 : env.openOk = true
  · by_cases h2 : env.clientInit = LGMP_STATUS.LGMP_OK
    · by_cases h3 : env.sessionInit = LGMP_STATUS.LGMP_OK
      · by_cases h4 : env.udataSize = K.sizeofKVMFR
        · by_cases h5 : env.udata.magic.take K.sizeofMagic = K.KVMFR_MAGIC.take K.sizeofMagic
          · by_cases h6 : env.udata.version = K.KVMFR_VERSION
            · simp [lgUpdate, memcmpNe, h1, h2, h3, h4, h5, h6, LGPlugin.emit,
                workersCreated_append, hd]
              simp [workersCreated]
            · simp [lgUpdate, memcmpNe, h1, h2, h3, h4, h5, h6, LGPlugin.emit,
                workersCreated_append, hd]
              simp [workersCreated]
          · simp [lgUpdate, memcmpNe, h1, h2, h3, h4, h5, LGPlugin.emit,
              workersCreated_append, hd]
            simp [workersCreated]
        · simp [lgUpdate, memcmpNe, h1, h2, h3, h4, LGPlugin.emit, workersCreated_append, hd]
          simp [workersCreated]
      · simp [lgUpdate, h1, h2, h3, LGPlugin.emit, workersCreated_append, hd]
        simp [workersCreated]
    · simp [lgUpdate, h1, h2, LGPlugin.emit, workersCreated_append, hd]
      simp [workersCreated]
  · simp [lgUpdate, h1, LGPlugin.emit, workersCreated_append, hd, hst]
    simp [workersCreated]

theorem C5_descriptor_check_witness :
    (sampleUpdate 140 { magic := [75, 86, 77, 70, 82, 45, 45, 45], version := 4 }).openOk = true ∧
    (4 : Nat) ≠ sampleKVMFR.KVMFR_VERSION ∧
    (lgUpdate sampleKVMFR
      (sampleUpdate 140 { magic := [75, 86, 77, 70, 82, 45, 45, 45], version := 4 })
      stoppedPlugin).state = LGState.STATE_OPEN ∧
    workersCreated (lgUpdate sampleKVMFR
      (sampleUpdate 140 { magic := [75, 86, 77, 70, 82, 45, 45, 45], version := 4 })
      stoppedPlugin).log = 0 ∧
    (lgUpdate sampleKVMFR
      (sampleUpdate 140 { magic := [75, 86, 77, 70, 82, 45, 45, 45], version := 5 })
      stoppedPlugin).state = LGState.STATE_STARTING ∧
    workersCreated (lgUpdate sampleKVMFR
      (sampleUpdate 140 { magic := [75, 86, 77, 70, 82, 45, 45, 45], version := 5 })
      stoppedPlugin).log = 2 :=
  ⟨rfl, by decide,
    ((C5_descriptor_check sampleKVMFR
      (sampleUpdate 140 { magic := [75, 86, 77, 70, 82, 45, 45, 45], version := 4 })
      stoppedPlugin).2.1 rfl rfl rfl (Or.inr (Or.inr (by decide)))).1,
    ((C5_descriptor_check sampleKVMFR
      (sampleUpdate 140 { magic := [75, 86, 77, 70, 82, 45, 45, 45], version := 4 })
      stoppedPlugin).2.1 rfl rfl rfl (Or.inr (Or.inr (by decide)))).2,
    ((C5_descriptor_check sampleKVMFR
      (sampleUpdate 140 { magic := [75, 86, 77, 70, 82, 45, 45, 45], version := 5 })
      stoppedPlugin).2.2 rfl rfl rfl rfl rfl rfl).1,
    ((C5_descriptor_check sampleKVMFR
      (sampleUpdate 140 { magic := [75, 86, 77, 70, 82, 45, 45, 45], version := 5 })
      stoppedPlugin).2.2 rfl rfl rfl rfl rfl rfl).2⟩

/-! ### The frame part of `lgVideoTick` -/

theorem frameMessagesDone_append (l₁ l₂ : List LGEvent) :
    frameMessagesDone (l₁ ++ l₂) = frameMessagesDone l₁ + frameMessagesDone l₂ := by
  unfold frameMessagesDone; exact List.count_append _ l₁ l₂

theorem frameTextureCalls_append (l₁ l₂ : List LGEvent) :
    frameTextureCalls (l₁ ++ l₂) = frameTextureCalls l₁ + frameTextureCalls l₂ := by
  unfold frameTextureCalls; exact List.countP_append _ l₁ l₂

/-- When the session is running and the queue delivers a frame, `lgVideoTick`
is the frame part run from `tickReceived`. -/
theorem lgVideoTick_received (env : TickEnv) (this : LGPlugin)
    (hrun : this.state = LGState.STATE_RUNNING)
    (hadv : env.advance = LGMP_STATUS.LGMP_OK ∨ env.advance = LGMP_STATUS.LGMP_ERR_QUEUE_EMPTY)
    (hproc : env.process = LGMP_STATUS.LGMP_OK) :
    lgVideoTick env this = tickFrame env (tickReceived env this) := by
  have hadv2 : ¬ (env.advance ≠ LGMP_STATUS.LGMP_OK ∧
      env.advance ≠ LGMP_STATUS.LGMP_ERR_QUEUE_EMPTY) := by
    rcases hadv with h | h <;> simp [h]
  unfold lgVideoTick tickReceived
  dsimp only
  rw [if_neg (by simp [hrun]), if_neg (by simp [LGPlugin.emit, hrun]), if_neg hadv2,
    if_neg (by simp [hproc])]

/-- The cursor block leaves the frame texture and its bookkeeping alone and
logs no call about the frame texture or the frame queue. -/
theorem tickCursor_frame (env : TickEnv) (v : Nat) (this : LGPlugin) :
    (tickCursor env v this).texture = this.texture ∧
    (tickCursor env v this).formatVer = this.formatVer ∧
    (tickCursor env v this).texData = this.texData ∧
    (tickCursor env v this).linesize = this.linesize ∧
    (tickCursor env v this).bpp = this.bpp ∧
    ∃ evs, (tickCursor env v this).log = this.log ++ evs ∧
      frameTextureCalls evs = 0 ∧ frameMessagesDone evs = 0 := by
  unfold tickCursor
  cases hc : this.cursorTex <;> cases ht : this.cursor.type <;>
    simp [LGPlugin.emit, hc, ht] <;>
    simp [frameTextureCalls, frameMessagesDone]

/-- Up to the receipt of the frame, a tick leaves the frame texture and its
bookkeeping alone and logs no call about the frame texture, nor a completion. -/
theorem tickReceived_frame (env : TickEnv) (this : LGPlugin) :
    (tickReceived env this).texture = this.texture ∧
    (tickReceived env this).formatVer = this.formatVer ∧
    (tickReceived env this).texData = this.texData ∧
    (tickReceived env this).linesize = this.linesize ∧
    (tickReceived env this).bpp = this.bpp ∧
    ∃ evs, (tickReceived env this).log = this.log ++ evs ∧
      frameTextureCalls evs = 0 ∧ frameMessagesDone evs = 0 := by
  unfold tickReceived
  dsimp only
  split_ifs with hv
  · obtain ⟨h1, h2, h3, h4, h5, evs, h6, h7, h8⟩ := tickCursor_frame env
      (this.emit [LGEvent.semWait Chan.frame]).cursorVer
      { (this.emit [LGEvent.semWait Chan.frame]) with
        cursorRect := { (this.emit [LGEvent.semWait Chan.frame]).cursorRect with
          x := (this.emit [LGEvent.semWait Chan.frame]).cursor.x
          y := (this.emit [LGEvent.semWait Chan.frame]).cursor.y } }
    refine ⟨by simpa [LGPlugin.emit] using h1, by simpa [LGPlugin.emit] using h2,
      by simpa [LGPlugin.emit] using h3, by simpa [LGPlugin.emit] using h4,
      by simpa [LGPlugin.emit] using h5,
      [LGEvent.semWait Chan.frame] ++ evs ++
        [LGEvent.advanceToLast, LGEvent.clientProcess Chan.frame], ?_, ?_, ?_⟩
    · simp only [LGPlugin.emit] at h6 ⊢
      rw [h6]; simp
    · rw [frameTextureCalls_append, frameTextureCalls_append, h7]; simp [frameTextureCalls]
    · rw [frameMessagesDone_append, frameMessagesDone_append, h8]; simp [frameMessagesDone]
  · refine ⟨rfl, rfl, rfl, rfl, rfl,
      [LGEvent.semWait Chan.frame, LGEvent.advanceToLast, LGEvent.clientProcess Chan.frame],
      by simp [LGPlugin.emit], by simp [frameTextureCalls], by simp [frameMessagesDone]⟩

theorem dropTexture_log (t : LGPlugin) :
    ∃ evs, (dropTexture t).log = t.log ++ evs ∧ frameMessagesDone evs = 0 := by
  unfold dropTexture
  cases ht : t.texture with
  | none => exact ⟨[], by simp, by decide⟩
  | some h => exact ⟨_, rfl, by simp [frameMessagesDone]⟩

theorem createTexture_log (env : TickEnv) (t : LGPlugin) :
    ∃ evs, (createTexture env t).2.log = t.log ++ evs ∧ frameMessagesDone evs = 0 := by
  unfold createTexture
  dsimp only
  cases hf : frameFormat t.type with
  | none => exact ⟨_, rfl, by decide⟩
  | some fb =>
    obtain ⟨format, bpp⟩ := fb
    cases hn : env.frameTexCreate with
    | none =>
      exact ⟨_, by simp only [LGPlugin.emit, List.append_assoc]; rfl,
        by simp [frameMessagesDone]⟩
    | some h =>
      exact ⟨_, by simp only [LGPlugin.emit, List.append_assoc]; rfl,
        by simp [frameMessagesDone]⟩

/-- The texture block logs no completion of the frame message. -/
theorem tickTexture_log (env : TickEnv) (t : LGPlugin) :
    ∃ evs, (tickTexture env t).2.log = t.log ++ evs ∧ frameMessagesDone evs = 0 := by
  unfold tickTexture
  by_cases hc : t.texture = none ∨ t.formatVer ≠ env.frame.formatVer
  · rw [if_pos hc]
    obtain ⟨e1, h1, d1⟩ := dropTexture_log
      { (t.emit [LGEvent.enterGraphics]) with
        formatVer := env.frame.formatVer, width := env.frame.width
        height := env.frame.height, type := env.frame.type }
    obtain ⟨e2, h2, d2⟩ := createTexture_log env (dropTexture
      { (t.emit [LGEvent.enterGraphics]) with
        formatVer := env.frame.formatVer, width := env.frame.width
        height := env.frame.height, type := env.frame.type })
    refine ⟨[LGEvent.enterGraphics] ++ e1 ++ e2, ?_, ?_⟩
    · dsimp only
      rw [h2, h1]
      simp [LGPlugin.emit]
    · rw [frameMessagesDone_append, frameMessagesDone_append, d1, d2]; decide
  · rw [if_neg hc]
    exact ⟨[], by simp, by decide⟩

/-- The final block completes the frame message once. -/
theorem tickCopy_log (env : TickEnv) (t : LGPlugin) :
    frameMessagesDone (tickCopy env t).log = frameMessagesDone t.log + 1 := by
  unfold tickCopy
  cases ht : t.texture <;>
    simp [LGPlugin.emit, frameMessagesDone_append] <;>
    simp [frameMessagesDone]

/-- What `lgVideoTick` does about `lgmpClientMessageDone` once a frame message
was received: one call when the texture block is left normally, none when
`lgVideoTick` returns from inside it. -/
theorem lgVideoTick_messagesDone (env : TickEnv) (this : LGPlugin)
    (hrun : this.state = LGState.STATE_RUNNING)
    (hadv : env.advance = LGMP_STATUS.LGMP_OK ∨ env.advance = LGMP_STATUS.LGMP_ERR_QUEUE_EMPTY)
    (hproc : env.process = LGMP_STATUS.LGMP_OK) :
    frameMessagesDone (lgVideoTick env this).log =
      frameMessagesDone this.log +
        (if (tickTexture env (tickReceived env this)).1 = true then 1 else 0) := by
  rw [lgVideoTick_received env this hrun hadv hproc]
  obtain ⟨_, _, _, _, _, evs, hlog, _, hdone⟩ := tickReceived_frame env this
  obtain ⟨evs2, hlog2, hdone2⟩ := tickTexture_log env (tickReceived env this)
  unfold tickFrame
  dsimp only
  split_ifs with hflag
  · rw [tickCopy_log, hlog2, hlog, frameMessagesDone_append, frameMessagesDone_append,
      hdone, hdone2]
  · rw [hlog2, hlog, frameMessagesDone_append, frameMessagesDone_append, hdone, hdone2]

/-! ### C6 -/

/-- C6 (the code at the failing inputs): a running session without a texture
receives a frame message.  When the frame type is not a known format, the tick
posts the semaphore and returns; when `gs_texture_create` fails, likewise.  On
neither path is `lgmpClientMessageDone` called. -/
theorem C6_early_return_skips_messageDone :
    startedPlugin.state = LGState.STATE_RUNNING ∧
    (lgVideoTick
      (sampleTick { formatVer := 1, type := FrameType.other 0, width := 200, height := 50,
                    pitch := 800, offset := 0 } (some 8))
      startedPlugin).log =
      [LGEvent.semWait Chan.frame, LGEvent.advanceToLast, LGEvent.clientProcess Chan.frame,
       LGEvent.enterGraphics, LGEvent.semPost Chan.frame, LGEvent.leaveGraphics] ∧
    frameMessagesDone (lgVideoTick
      (sampleTick { formatVer := 1, type := FrameType.other 0, width := 200, height := 50,
                    pitch := 800, offset := 0 } (some 8))
      startedPlugin).log = 0 ∧
    (lgVideoTick
      (sampleTick { formatVer := 1, type := FrameType.FRAME_TYPE_RGBA, width := 200,
                    height := 50, pitch := 800, offset := 0 } none)
      startedPlugin).log =
      [LGEvent.semWait Chan.frame, LGEvent.advanceToLast, LGEvent.clientProcess Chan.frame,
       LGEvent.enterGraphics,
       LGEvent.textureCreate Tex.frame 200 50 gs_color_format.GS_RGBA,
       LGEvent.semPost Chan.frame, LGEvent.leaveGraphics] ∧
    frameMessagesDone (lgVideoTick
      (sampleTick { formatVer := 1, type := FrameType.FRAME_TYPE_RGBA, width := 200,
                    height := 50, pitch := 800, offset := 0 } none)
      startedPlugin).log = 0 := by
  decide

/-! ### C10 -/

theorem readU32_lt (data : Nat → Nat) (i : Nat) : readU32 data i < 2 ^ 32 := by
  unfold readU32
  have h0 := Nat.mod_lt (data (4 * i)) (by norm_num : 256 > 0)
  have h1 := Nat.mod_lt (data (4 * i + 1)) (by norm_num : 256 > 0)
  have h2 := Nat.mod_lt (data (4 * i + 2)) (by norm_num : 256 > 0)
  have h3 := Nat.mod_lt (data (4 * i + 3)) (by norm_num : 256 > 0)
  omega

theorem and_topByte (s : Nat) (hs : s < 2 ^ 32) : s &&& 0xFF000000 = s / 2 ^ 24 * 2 ^ 24 := by
  apply Nat.eq_of_testBit_eq
  intro i
  have h1 : (0xFF000000 : Nat) = 2 ^ 24 * (2 ^ 8 - 1) := by norm_num
  have h2 : s / 2 ^ 24 * 2 ^ 24 = 2 ^ 24 * (s >>> 24) := by
    rw [Nat.shiftRight_eq_div_pow, Nat.mul_comm]
  rw [Nat.testBit_and, h1, h2, Nat.testBit_mul_pow_two, Nat.testBit_mul_pow_two,
    Nat.testBit_two_pow_sub_one, Nat.testBit_shiftRight]
  by_cases h4 : 24 ≤ i
  · have e : 24 + (i - 24) = i := by omega
    simp only [ge_iff_le, h4, e, decide_True, Bool.true_and]
    by_cases h32 : i < 32
    · have : i - 24 < 8 := by omega
      simp [this]
    · have hf : s.testBit i = false := by
        apply Nat.testBit_lt_two_pow
        calc s < 2 ^ 32 := hs
          _ ≤ 2 ^ i := Nat.pow_le_pow_right (by norm_num) (by omega)
      simp [hf]
  · simp [h4]

/-- The pixel transform in arithmetic form: the low 24 bits are kept and the
top byte becomes 0 when it was non-zero and 0xFF when it was zero. -/
theorem maskedColorPixel_eq (s : Nat) (hs : s < 2 ^ 32) :
    maskedColorPixel s = s % 2 ^ 24 + (if s / 2 ^ 24 ≠ 0 then 0 else 0xFF) * 2 ^ 24 := by
  unfold maskedColorPixel
  have hlow : s &&& 0x00FFFFFF = s % 2 ^ 24 := by
    have := Nat.and_pow_two_sub_one_eq_mod s 24
    norm_num at this ⊢
    exact this
  have htop := and_topByte s hs
  have hlt : s % 2 ^ 24 < 2 ^ 24 := Nat.mod_lt _ (by norm_num)
  rw [hlow, htop]
  by_cases hz : s / 2 ^ 24 = 0
  · have hor := Nat.mul_add_lt_is_or hlt 255
    rw [Nat.lor_comm] at hor
    simp only [hz, Nat.zero_mul, ne_eq, not_true_eq_false, if_false]
    have e : (0xFF000000 : Nat) = 2 ^ 24 * 255 := by norm_num
    rw [e, ← hor]
    omega
  · have hne : s / 2 ^ 24 * 2 ^ 24 ≠ 0 := by
      intro h0
      rcases Nat.mul_eq_zero.mp h0 with h | h
      · exact hz h
      · norm_num at h
    simp only [hne, hz, ne_eq, not_false_eq_true, if_true, Nat.or_zero, Nat.zero_mul,
      Nat.add_zero]

theorem decodeMaskedColor_succ (s : Nat → Nat) (n : Nat) (d : Nat → Nat) :
    decodeMaskedColor s (n + 1) d =
      Function.update (decodeMaskedColor s n d) n (maskedColorPixel (s n)) := by
  unfold decodeMaskedColor
  rw [List.range_succ, List.foldl_append]
  rfl

/-- The loop writes the transformed source pixel at every index below `n` and
nothing else. -/
theorem decodeMaskedColor_apply (s : Nat → Nat) (n : Nat) (d : Nat → Nat) (i : Nat) :
    decodeMaskedColor s n d i = if i < n then maskedColorPixel (s i) else d i := by
  induction n with
  | zero => simp [decodeMaskedColor]
  | succ n ih =>
    rw [decodeMaskedColor_succ, Function.update_apply]
    by_cases h : i = n
    · subst h; simp
    · rw [if_neg h, ih]
      by_cases h2 : i < n
      · have : i < n + 1 := by omega
        simp [h2, this]
      · have : ¬ i < n + 1 := by omega
        simp [h2, this]

theorem allocCursorData_size (this : LGPlugin) (size : Nat) (fresh : Nat → Nat) :
    size ≤ (allocCursorData this size fresh).cursorSize := by
  unfold allocCursorData
  split_ifs with h
  · exact h
  · exact Nat.le_refl _

theorem allocCursorData_noop (this : LGPlugin) (size : Nat) (fresh : Nat → Nat)
    (h : size ≤ this.cursorSize) : allocCursorData this size fresh = this := by
  unfold allocCursorData
  rw [if_pos h]

theorem allocCursorData_emit (this : LGPlugin) (es : List LGEvent) (size : Nat)
    (fresh : Nat → Nat) :
    (allocCursorData (this.emit es) size fresh).cursorData
      = (allocCursorData this size fresh).cursorData ∧
    (allocCursorData (this.emit es) size fresh).cursorSize
      = (allocCursorData this size fresh).cursorSize := by
  unfold allocCursorData LGPlugin.emit
  dsimp only
  split_ifs <;> exact ⟨rfl, rfl⟩

theorem allocCursorData_cursorSize (this : LGPlugin) (size : Nat) (fresh : Nat → Nat) :
    (allocCursorData this size fresh).cursorSize = max this.cursorSize size := by
  unfold allocCursorData
  split_ifs with h
  · exact (Nat.max_eq_left h).symm
  · show size = max this.cursorSize size
    exact (Nat.max_eq_right (by omega)).symm

theorem pointerShape_masked (this : LGPlugin) (cursor : KVMFRCursor) (data fresh : Nat → Nat)
    (htype : cursor.type = CursorType.CURSOR_TYPE_MASKED_COLOR) :
    ∃ t, pointerShape this cursor data fresh = some t ∧
      t.cursorData =
        decodeMaskedColor (readU32 data) ((cursor.height * cursor.pitch) % 2 ^ 32 / 4)
          (allocCursorData this ((cursor.height * cursor.pitch) % 2 ^ 32) fresh).cursorData ∧
      t.cursorSize =
        (allocCursorData this ((cursor.height * cursor.pitch) % 2 ^ 32) fresh).cursorSize := by
  have h := allocCursorData_emit this [LGEvent.semWait Chan.pointer]
    ((cursor.height * cursor.pitch) % 2 ^ 32) fresh
  unfold pointerShape decodeShape
  dsimp only
  rw [htype]
  dsimp only
  refine ⟨_, rfl, ?_, ?_⟩
  · show decodeMaskedColor _ _ _ = _
    rw [h.1]
  · exact h.2

/-! ### C8 -/

/-- C8 (as stated, refuted): a masked-colour shape of 0x40000001 rows of 4
bytes has `(h*p)/4 = 0x40000001` pixels, but `dataSize = height * pitch` is an
`unsigned int` and holds 4, so the loop decodes one pixel: pixel 0 is the
transform of the first source word, pixel 1 is what the fresh buffer held (7)
and not the transform 0x00445566 of the second source word 0x80445566. -/
theorem C8_counterexample :
    bigMaskedCursor.type = CursorType.CURSOR_TYPE_MASKED_COLOR ∧
    1 < bigMaskedCursor.height * bigMaskedCursor.pitch / 4 ∧
    (pointerShape samplePlugin bigMaskedCursor maskedPayload (fun _ => 7)).map
      (fun t => (t.cursorSize, t.cursorData 0, t.cursorData 1)) = some (4, 0xFF112233, 7) ∧
    readU32 maskedPayload 1 = 0x80445566 ∧
    ((readU32 maskedPayload 1 &&& 0x00FFFFFF) |||
      (if readU32 maskedPayload 1 &&& 0xFF000000 ≠ 0 then 0x00000000 else 0xFF000000))
      = 0x00445566 := by
  decide

/-- C8 (amended): for a `CURSOR_TYPE_MASKED_COLOR` shape message the decoder
returns and writes exactly `dataSize / 4` output pixels, where `dataSize` is the
`unsigned int` that holds `height * pitch`, that is `(h*p) mod 2^32` (equal to
`h*p` whenever `h*p < 2^32`): every pixel below that index is
`(s[i] & 0x00FFFFFF) | (s[i] & 0xFF000000 ? 0 : 0xFF000000)`, so its low 24 bits
are those of the source and its top byte is 0 when the source top byte is
non-zero and 0xFF when it is zero, and every pixel from that index on is what
the buffer held.  Decoding the same payload a second time leaves the buffer and
its size as the first decoding left them. -/
theorem C8_masked_color_decode (this : LGPlugin) (cursor : KVMFRCursor)
    (data fresh fresh' : Nat → Nat)
    (htype : cursor.type = CursorType.CURSOR_TYPE_MASKED_COLOR) :
    ∃ t, pointerShape this cursor data fresh = some t ∧
    (∀ i, i < (cursor.height * cursor.pitch) % 2 ^ 32 / 4 →
      t.cursorData i =
        ((readU32 data i &&& 0x00FFFFFF) |||
          (if readU32 data i &&& 0xFF000000 ≠ 0 then 0x00000000 else 0xFF000000)) ∧
      t.cursorData i % 2 ^ 24 = readU32 data i % 2 ^ 24 ∧
      t.cursorData i / 2 ^ 24 = (if readU32 data i / 2 ^ 24 ≠ 0 then 0 else 0xFF)) ∧
    (∀ i, (cursor.height * cursor.pitch) % 2 ^ 32 / 4 ≤ i →
      t.cursorData i =
        (allocCursorData this ((cursor.height * cursor.pitch) % 2 ^ 32) fresh).cursorData i) ∧
    (cursor.height * cursor.pitch < 2 ^ 32 →
      (cursor.height * cursor.pitch) % 2 ^ 32 / 4 = cursor.height * cursor.pitch / 4) ∧
    ∃ t', pointerShape t cursor data fresh' = some t' ∧
      t'.cursorData = t.cursorData ∧ t'.cursorSize = t.cursorSize := by
  obtain ⟨t, ht, hd, hs⟩ := pointerShape_masked this cursor data fresh htype
  obtain ⟨t', ht', hd2, hs2⟩ := pointerShape_masked t cursor data fresh' htype
  have hsize : (cursor.height * cursor.pitch) % 2 ^ 32 ≤ t.cursorSize := by
    rw [hs]; exact allocCursorData_size _ _ _
  have hnoop := allocCursorData_noop t _ fresh' hsize
  refine ⟨t, ht, ?_, ?_, ?_, t', ht', ?_, ?_⟩
  · intro i hi
    have hval : t.cursorData i = maskedColorPixel (readU32 data i) := by
      rw [hd, decodeMaskedColor_apply, if_pos hi]
    have harith := maskedColorPixel_eq (readU32 data i) (readU32_lt data i)
    refine ⟨hval, ?_, ?_⟩
    · rw [hval, harith]
      split_ifs <;> omega
    · rw [hval, harith]
      split_ifs <;> omega
  · intro i hi
    rw [hd, decodeMaskedColor_apply, if_neg (Nat.not_lt.mpr hi)]
  · intro hlt
    rw [Nat.mod_eq_of_lt hlt]
  · rw [hd2, hnoop]
    funext i
    rw [decodeMaskedColor_apply]
    split_ifs with hi
    · rw [hd, decodeMaskedColor_apply, if_pos hi]
    · rfl
  · rw [hs2, hnoop]

theorem C8_masked_color_decode_witness :
    maskedCursor.type = CursorType.CURSOR_TYPE_MASKED_COLOR ∧
    (maskedCursor.height * maskedCursor.pitch) % 2 ^ 32 / 4 = 4 ∧
    readU32 maskedPayload 0 = 0x00112233 ∧ readU32 maskedPayload 1 = 0x80445566 ∧
    (pointerShape samplePlugin maskedCursor maskedPayload (fun _ => 0)).map
      (fun t => (t.cursorData 0, t.cursorData 1, t.cursorData 2, t.cursorData 3))
      = some (0xFF112233, 0x00445566, 0x00000000, 0xFFFFFFFF) ∧
    ∃ t, pointerShape samplePlugin maskedCursor maskedPayload (fun _ => 0) = some t ∧
      t.cursorData 0 / 2 ^ 24 = (if readU32 maskedPayload 0 / 2 ^ 24 ≠ 0 then 0 else 0xFF) ∧
      ∃ t', pointerShape t maskedCursor maskedPayload (fun _ => 7) = some t' ∧
        t'.cursorData = t.cursorData :=
  ⟨rfl, by decide, by decide, by decide, by decide,
    (C8_masked_color_decode samplePlugin maskedCursor maskedPayload (fun _ => 0) (fun _ => 7)
      rfl).elim
      (fun t ht => ⟨t, ht.1, (ht.2.1 0 (by decide)).2.2,
        ht.2.2.2.2.elim (fun t' ht' => ⟨t', ht'.1, ht'.2.1⟩)⟩)⟩

/-! ### The monochrome decoder -/

/-- After the first `n` columns of row `y`, when the row's stores lie inside the
buffer and its indices do not wrap: the loop has not failed, the AND pixels of
the row sit at `y * width + x`, the XOR pixels at
`y * width + x + width * hheight`, and every other word is untouched. -/
theorem monoRow_fold (data : Nat → Nat) (size w p hh y : Nat) (hhh : 1 ≤ hh) (d : Nat → Nat)
    (hfit : 4 * (y * w + w * hh + w) ≤ size) (hnw : y * w + w * hh + w ≤ 2 ^ 32)
    (n : Nat) (hn : n ≤ w) :
    ∃ d', (List.range n).foldl
        (fun o x =>
          o.bind (fun d =>
            (storeWord size d ((y * w + x) % 2 ^ 32) (monoAndMask data p x y)).bind
              (fun d1 =>
                storeWord size d1 ((y * w + x + w * hh) % 2 ^ 32)
                  (monoXorMask data p hh x y))))
        (some d) = some d' ∧
      ∀ j, d' j =
        if y * w ≤ j ∧ j < y * w + n then monoAndMask data p (j - y * w) y
        else if y * w + w * hh ≤ j ∧ j < y * w + w * hh + n then
          monoXorMask data p hh (j - (y * w + w * hh)) y
        else d j := by
  induction n with
  | zero =>
    refine ⟨d, rfl, ?_⟩
    intro j
    rw [if_neg (by omega), if_neg (by omega)]
  | succ n ih =>
    obtain ⟨d', he, hv⟩ := ih (by omega)
    have hb : w ≤ w * hh := Nat.le_mul_of_pos_right w hhh
    have m1 : (y * w + n) % 2 ^ 32 = y * w + n := Nat.mod_eq_of_lt (by omega)
    have m2 : (y * w + n + w * hh) % 2 ^ 32 = y * w + n + w * hh :=
      Nat.mod_eq_of_lt (by omega)
    have s1 : ∀ v, storeWord size d' (y * w + n) v
        = some (Function.update d' (y * w + n) v) := by
      intro v; unfold storeWord; rw [if_pos (by omega)]
    have s2 : ∀ (e : Nat → Nat) v, storeWord size e (y * w + n + w * hh) v
        = some (Function.update e (y * w + n + w * hh) v) := by
      intro e v; unfold storeWord; rw [if_pos (by omega)]
    rw [List.range_succ, List.foldl_append, he, List.foldl_cons, List.foldl_nil]
    simp only [Option.some_bind, m1, m2, s1, s2]
    refine ⟨_, rfl, ?_⟩
    intro j
    rw [Function.update_apply, Function.update_apply, hv]
    clear he hv s1 s2 m1 m2 ih hfit hnw
    generalize y * w = a
    generalize w * hh = b at hb ⊢
    split_ifs <;> first | rfl | omega | (congr 1; omega)

theorem decodeMonoRow_apply (data : Nat → Nat) (size w p hh y : Nat) (hhh : 1 ≤ hh)
    (d : Nat → Nat)
    (hfit : 4 * (y * w + w * hh + w) ≤ size) (hnw : y * w + w * hh + w ≤ 2 ^ 32) :
    ∃ d', decodeMonoRow data size w p hh y (some d) = some d' ∧
      ∀ j, d' j =
        if y * w ≤ j ∧ j < y * w + w then monoAndMask data p (j - y * w) y
        else if y * w + w * hh ≤ j ∧ j < y * w + w * hh + w then
          monoXorMask data p hh (j - (y * w + w * hh)) y
        else d j := by
  unfold decodeMonoRow
  exact monoRow_fold data size w p hh y hhh d hfit hnw w (Nat.le_refl w)

/-- After the first `n` rows, when the `2 * width * hheight` pixels fit the
buffer: the loops have not failed and every pixel of those rows holds its AND
value in the upper half and its XOR value in the lower half. -/
theorem monoRows_fold (data : Nat → Nat) (size w p hh : Nat) (d : Nat → Nat)
    (hfit : 8 * (w * hh) ≤ size) (hnw : 2 * (w * hh) ≤ 2 ^ 32) (n : Nat) (hn : n ≤ hh) :
    ∃ D, (List.range n).foldl (fun o y => decodeMonoRow data size w p hh y o) (some d)
        = some D ∧
      ∀ y, y < n → ∀ x, x < w →
        D (y * w + x) = monoAndMask data p x y ∧
        D (y * w + x + w * hh) = monoXorMask data p hh x y := by
  induction n with
  | zero => exact ⟨d, rfl, fun y hy => absurd hy (Nat.not_lt_zero y)⟩
  | succ n ih =>
    obtain ⟨D0, he, hv⟩ := ih (by omega)
    have hhh : 1 ≤ hh := by omega
    have hb : n * w + w ≤ w * hh := by
      have := Nat.mul_le_mul_right w (show n + 1 ≤ hh from hn)
      rw [Nat.succ_mul] at this
      rw [Nat.mul_comm w hh]
      exact this
    obtain ⟨D1, he1, hv1⟩ := decodeMonoRow_apply data size w p hh n hhh D0
      (by omega) (by omega)
    rw [List.range_succ, List.foldl_append, he, List.foldl_cons, List.foldl_nil, he1]
    refine ⟨D1, rfl, ?_⟩
    intro y hy x hx
    rw [hv1, hv1]
    by_cases hyn : y = n
    · subst hyn
      constructor
      · rw [if_pos (by omega)]
        congr 1
        omega
      · rw [if_neg (by omega), if_pos (by omega)]
        congr 1
        omega
    · have hlt : y < n := by omega
      have ha : y * w + w ≤ n * w := by
        have := Nat.mul_le_mul_right w (show y + 1 ≤ n from hlt)
        rw [Nat.succ_mul] at this
        exact this
      obtain ⟨i1, i2⟩ := hv y hlt x hx
      constructor
      · rw [if_neg (by omega), if_neg (by omega)]
        exact i1
      · rw [if_neg (by omega), if_neg (by omega)]
        exact i2

theorem decodeMonochrome_apply (data : Nat → Nat) (size w h p : Nat) (d : Nat → Nat)
    (hfit : 8 * (w * (h / 2)) ≤ size) (hnw : 2 * (w * (h / 2)) ≤ 2 ^ 32) :
    ∃ D, decodeMonochrome data size w h p d = some D ∧
      ∀ y, y < h / 2 → ∀ x, x < w →
        D (y * w + x) = monoAndMask data p x y ∧
        D (y * w + x + w * (h / 2)) = monoXorMask data p (h / 2) x y := by
  unfold decodeMonochrome
  exact monoRows_fold data size w p (h / 2) d hfit hnw (h / 2) (Nat.le_refl _)

/-- A shape whose `height * width * 4` fits the `unsigned int dataSize` fits the
buffer that `allocCursorData` leaves. -/
theorem mono_fits_of_nowrap (w h c : Nat) (hlt : h * w * 4 < 2 ^ 32) :
    8 * (w * (h / 2)) ≤ max c ((h * w * 4) % 2 ^ 32) := by
  rw [Nat.mod_eq_of_lt hlt]
  have h2 : 2 * (h / 2) ≤ h := by omega
  have h3 : w * (2 * (h / 2)) ≤ w * h := Nat.mul_le_mul_left w h2
  have e1 : w * (2 * (h / 2)) = 2 * (w * (h / 2)) := by
    rw [Nat.mul_left_comm]
  have e2 : h * w * 4 = 4 * (w * h) := by
    rw [Nat.mul_comm h w, Nat.mul_comm]
  have hm : h * w * 4 ≤ max c (h * w * 4) := Nat.le_max_right _ _
  omega

theorem pointerShape_mono (this : LGPlugin) (cursor : KVMFRCursor) (data fresh : Nat → Nat)
    (htype : cursor.type = CursorType.CURSOR_TYPE_MONOCHROME) (D : Nat → Nat)
    (hD : decodeMonochrome data
        (max this.cursorSize ((cursor.height * cursor.width * 4) % 2 ^ 32))
        cursor.width cursor.height cursor.pitch
        (allocCursorData this ((cursor.height * cursor.width * 4) % 2 ^ 32) fresh).cursorData
      = some D) :
    ∃ t, pointerShape this cursor data fresh = some t ∧ t.cursorData = D := by
  have h := allocCursorData_emit this [LGEvent.semWait Chan.pointer]
    ((cursor.height * cursor.width * 4) % 2 ^ 32) fresh
  have hs := allocCursorData_cursorSize this ((cursor.height * cursor.width * 4) % 2 ^ 32) fresh
  unfold pointerShape decodeShape
  dsimp only
  rw [htype]
  dsimp only
  rw [h.1, h.2, hs, hD]
  exact ⟨_, rfl, rfl⟩

/-- With at least one row and one column and a buffer of fewer than 4 bytes,
the first store of the monochrome loops falls outside the buffer. -/
theorem decodeMonochrome_overflow (data : Nat → Nat) (size w h p : Nat) (d : Nat → Nat)
    (hh : 1 ≤ h / 2) (hw : 1 ≤ w) (hsize : size < 4) :
    decodeMonochrome data size w h p d = none := by
  have hnone : ∀ (α : Type) (f : Nat → Option α → Option α),
      (∀ x, f x none = none) → ∀ l : List Nat, l.foldl (fun o x => f x o) none = none := by
    intro α f hf l
    induction l with
    | nil => rfl
    | cons a l ih => rw [List.foldl_cons, hf, ih]
  have hrow : ∀ y, decodeMonoRow data size w p (h / 2) y none = none := by
    intro y
    unfold decodeMonoRow
    exact hnone _ (fun x o => o.bind _) (fun x => rfl) _
  obtain ⟨n, hn⟩ : ∃ n, h / 2 = n + 1 := ⟨h / 2 - 1, by omega⟩
  obtain ⟨m, hm⟩ : ∃ m, w = m + 1 := ⟨w - 1, by omega⟩
  have hfirst : decodeMonoRow data size w p (h / 2) 0 (some d) = none := by
    unfold decodeMonoRow
    rw [hm, List.range_succ_eq_map, List.foldl_cons]
    have hs : storeWord size d ((0 * (m + 1) + 0) % 2 ^ 32)
        (monoAndMask data p 0 0) = none := by
      unfold storeWord
      rw [if_neg (by simp; omega)]
    simp only [Option.some_bind, hs, Option.none_bind]
    exact hnone _ (fun x o => o.bind _) (fun x => rfl) _
  unfold decodeMonochrome
  dsimp only
  rw [hn, List.range_succ_eq_map, List.foldl_cons, ← hn, hfirst]
  exact hnone _ (fun y o => decodeMonoRow data size w p (h / 2) y o) hrow _

/-! ### C7 -/

/-- C7 (as stated, refuted): for a monochrome shape of 32768 by 32768 pixels
`dataSize = height * width * 4` wraps to 0 in `unsigned int`, the buffer of the
sample session stays at 0 bytes and the very first store `d[0]` of the loops
falls outside it: no output pixel is defined.  For a shape one pixel wide and 4
rows high with pitch 2^31, `pitch * hheight` wraps to 0 in `uint32_t`: at
`x = 0`, `y = 1` the loop reads its XOR byte at offset 2^31 (0x80, bit set) and
stores 0x00FFFFFF in `d[3]`, while byte `data[p*(y + hh) + x/8]` at offset
3 * 2^31 is 0. -/
theorem C7_counterexample :
    bigMonoCursor.type = CursorType.CURSOR_TYPE_MONOCHROME ∧
    (0 < bigMonoCursor.height / 2 ∧ 0 < bigMonoCursor.width) ∧
    (bigMonoCursor.height * bigMonoCursor.width * 4) % 2 ^ 32 = 0 ∧
    samplePlugin.cursorSize = 0 ∧
    pointerShape samplePlugin bigMonoCursor monoPayload (fun _ => 0) = none ∧
    wrapMonoCursor.type = CursorType.CURSOR_TYPE_MONOCHROME ∧
    (1 < wrapMonoCursor.height / 2 ∧ 0 < wrapMonoCursor.width) ∧
    (pointerShape samplePlugin wrapMonoCursor wrapMonoPayload (fun _ => 0)).map
      (fun t => t.cursorData
        (1 * wrapMonoCursor.width + 0 + wrapMonoCursor.width * (wrapMonoCursor.height / 2)))
      = some 0x00FFFFFF ∧
    (if (wrapMonoPayload (wrapMonoCursor.pitch * (1 + wrapMonoCursor.height / 2) + 0 / 8) % 256)
        &&& (0x80 >>> (0 % 8)) ≠ 0 then 0x00FFFFFF else 0x00000000) = 0x00000000 := by
  refine ⟨rfl, by decide, by decide, rfl, ?_, rfl, by decide, by decide, by decide⟩
  have h := decodeMonochrome_overflow monoPayload 0 32768 32768 4096 (fun _ => 0)
    (by decide) (by decide) (by decide)
  unfold pointerShape decodeShape
  simp only [bigMonoCursor]
  have hs : (allocCursorData (samplePlugin.emit [LGEvent.semWait Chan.pointer])
      (32768 * 32768 * 4 % 2 ^ 32) (fun _ => 0)) =
      samplePlugin.emit [LGEvent.semWait Chan.pointer] := by
    apply allocCursorData_noop
    decide
  rw [hs]
  show Option.map _ (Option.map _
    (decodeMonochrome monoPayload 0 32768 32768 4096 (fun _ => 0))) = none
  rw [h]
  rfl

/-- C7 (amended): for a `CURSOR_TYPE_MONOCHROME` shape message of width `w`,
height `h` and pitch `p`, with `hh = h / 2`, provided the `2*w*hh` pixels that
the loops write fit the cursor buffer as `allocCursorData` leaves it (the larger
of its previous size and `dataSize = (h*w*4) mod 2^32`, so always when
`h*w*4 < 2^32`) and `p*hh < 2^32`: the decoder returns, and for every `y < hh`
and `x < w` the output pixel `d[y*w + x]` is 0xFFFFFFFF when bit
`0x80 >> (x % 8)` of byte `data[p*y + x/8]` is set and 0xFF000000 otherwise, and
`d[y*w + x + w*hh]` is 0x00FFFFFF when the same bit of byte
`data[p*(y + hh) + x/8]` is set and 0 otherwise.  For `w = 2`, `h = 2` the four
output pixels are AND(0,0), AND(1,0), XOR(0,0), XOR(1,0) in that order. -/
theorem C7_monochrome_decode (this : LGPlugin) (cursor : KVMFRCursor)
    (data fresh : Nat → Nat)
    (htype : cursor.type = CursorType.CURSOR_TYPE_MONOCHROME)
    (hsize : this.cursorSize < 2 ^ 32)
    (hfit : 8 * (cursor.width * (cursor.height / 2)) ≤
      max this.cursorSize ((cursor.height * cursor.width * 4) % 2 ^ 32))
    (hpitch : cursor.pitch * (cursor.height / 2) < 2 ^ 32) :
    ∃ t, pointerShape this cursor data fresh = some t ∧
    (∀ x y, y < cursor.height / 2 → x < cursor.width →
      t.cursorData (y * cursor.width + x) =
        (if (data (cursor.pitch * y + x / 8) % 256) &&& (0x80 >>> (x % 8)) ≠ 0
          then 0xFFFFFFFF else 0xFF000000) ∧
      t.cursorData (y * cursor.width + x + cursor.width * (cursor.height / 2)) =
        (if (data (cursor.pitch * (y + cursor.height / 2) + x / 8) % 256) &&&
            (0x80 >>> (x % 8)) ≠ 0
          then 0x00FFFFFF else 0x00000000)) ∧
    (cursor.width = 2 → cursor.height = 2 →
      t.cursorData 0 = (if (data 0 % 256) &&& 0x80 ≠ 0 then 0xFFFFFFFF else 0xFF000000) ∧
      t.cursorData 1 = (if (data 0 % 256) &&& 0x40 ≠ 0 then 0xFFFFFFFF else 0xFF000000) ∧
      t.cursorData 2 =
        (if (data cursor.pitch % 256) &&& 0x80 ≠ 0 then 0x00FFFFFF else 0x00000000) ∧
      t.cursorData 3 =
        (if (data cursor.pitch % 256) &&& 0x40 ≠ 0 then 0x00FFFFFF else 0x00000000)) := by
  have hmax : max this.cursorSize ((cursor.height * cursor.width * 4) % 2 ^ 32) < 2 ^ 32 :=
    max_lt hsize (Nat.mod_lt _ (by norm_num))
  obtain ⟨D, hD, hv⟩ := decodeMonochrome_apply data
    (max this.cursorSize ((cursor.height * cursor.width * 4) % 2 ^ 32))
    cursor.width cursor.height cursor.pitch
    (allocCursorData this ((cursor.height * cursor.width * 4) % 2 ^ 32) fresh).cursorData
    hfit (by omega)
  obtain ⟨t, ht, htd⟩ := pointerShape_mono this cursor data fresh htype D hD
  have hgen : ∀ x y, y < cursor.height / 2 → x < cursor.width →
      t.cursorData (y * cursor.width + x) =
        (if (data (cursor.pitch * y + x / 8) % 256) &&& (0x80 >>> (x % 8)) ≠ 0
          then 0xFFFFFFFF else 0xFF000000) ∧
      t.cursorData (y * cursor.width + x + cursor.width * (cursor.height / 2)) =
        (if (data (cursor.pitch * (y + cursor.height / 2) + x / 8) % 256) &&&
            (0x80 >>> (x % 8)) ≠ 0
          then 0x00FFFFFF else 0x00000000) := by
    intro x y hy hx
    obtain ⟨h1, h2⟩ := hv y hy x hx
    rw [htd, h1, h2]
    have hpy : cursor.pitch * y ≤ cursor.pitch * (cursor.height / 2) :=
      Nat.mul_le_mul_left _ (Nat.le_of_lt hy)
    have m1 : (cursor.pitch * y) % 2 ^ 32 = cursor.pitch * y := Nat.mod_eq_of_lt (by omega)
    have m2 : (cursor.pitch * (cursor.height / 2)) % 2 ^ 32
        = cursor.pitch * (cursor.height / 2) := Nat.mod_eq_of_lt hpitch
    have e : cursor.pitch * (y + cursor.height / 2) + x / 8
        = cursor.pitch * y + x / 8 + cursor.pitch * (cursor.height / 2) := by
      rw [Nat.mul_add]; omega
    unfold monoAndMask monoXorMask
    dsimp only
    rw [m1, m2, e]
    exact ⟨rfl, rfl⟩
  refine ⟨t, ht, hgen, ?_⟩
  intro hw hh
  have h00 := hgen 0 0 (by rw [hh]; decide) (by rw [hw]; decide)
  have h10 := hgen 1 0 (by rw [hh]; decide) (by rw [hw]; decide)
  have s0 : (0x80 : Nat) >>> (0 % 8) = 0x80 := by decide
  have s1 : (0x80 : Nat) >>> (1 % 8) = 0x40 := by decide
  rw [hw, hh, s0] at h00
  rw [hw, hh, s1] at h10
  exact ⟨by simpa using h00.1, by simpa using h10.1, by simpa using h00.2,
    by simpa using h10.2⟩

theorem C7_monochrome_decode_witness :
    (monoCursor.type = CursorType.CURSOR_TYPE_MONOCHROME ∧
      monoCursor.width = 2 ∧ monoCursor.height = 2 ∧ samplePlugin.cursorSize < 2 ^ 32 ∧
      8 * (monoCursor.width * (monoCursor.height / 2)) ≤
        max samplePlugin.cursorSize ((monoCursor.height * monoCursor.width * 4) % 2 ^ 32) ∧
      monoCursor.pitch * (monoCursor.height / 2) < 2 ^ 32) ∧
    (pointerShape samplePlugin monoCursor monoPayload (fun _ => 0)).map
      (fun t => (t.cursorData 0, t.cursorData 1, t.cursorData 2, t.cursorData 3))
      = some (0xFFFFFFFF, 0xFF000000, 0x00000000, 0x00FFFFFF) ∧
    ∃ t, pointerShape samplePlugin monoCursor monoPayload (fun _ => 0) = some t ∧
      t.cursorData 3 =
        (if (monoPayload monoCursor.pitch % 256) &&& 0x40 ≠ 0 then 0x00FFFFFF
          else 0x00000000) :=
  ⟨by decide, by decide,
    (C7_monochrome_decode samplePlugin monoCursor monoPayload (fun _ => 0) rfl
      (by decide) (by decide) (by decide)).elim
      (fun t ht => ⟨t, ht.1, (ht.2.2 rfl rfl).2.2.2⟩)⟩

/-! ### The cursor texture across `lgVideoTick` -/

theorem cursorTextureCalls_append (l₁ l₂ : List LGEvent) :
    cursorTextureCalls (l₁ ++ l₂) = cursorTextureCalls l₁ + cursorTextureCalls l₂ := by
  unfold cursorTextureCalls; exact List.countP_append _ l₁ l₂

theorem CursorKept.refl (a : LGPlugin) : CursorKept a a :=
  ⟨rfl, rfl, rfl, rfl, rfl, rfl, [], by simp, rfl⟩

theorem CursorKept.trans {a b c : LGPlugin} (h₁ : CursorKept a b) (h₂ : CursorKept b c) :
    CursorKept a c := by
  obtain ⟨a1, a2, a3, a4, a5, a6, e1, a7, a8⟩ := h₁
  obtain ⟨b1, b2, b3, b4, b5, b6, e2, b7, b8⟩ := h₂
  refine ⟨b1.trans a1, b2.trans a2, b3.trans a3, b4.trans a4, b5.trans a5, b6.trans a6,
    e1 ++ e2, ?_, ?_⟩
  · rw [b7, a7, List.append_assoc]
  · rw [cursorTextureCalls_append, a8, b8]

/-- Logging calls that are not about the cursor texture keeps the cursor. -/
theorem CursorKept.emit (a : LGPlugin) (es : List LGEvent) (h : cursorTextureCalls es = 0) :
    CursorKept a (a.emit es) :=
  ⟨rfl, rfl, rfl, rfl, rfl, rfl, es, rfl, h⟩

theorem dropTexture_cursor (t : LGPlugin) : CursorKept t (dropTexture t) := by
  unfold dropTexture
  cases ht : t.texture with
  | none => exact CursorKept.refl t
  | some h => exact ⟨rfl, rfl, rfl, rfl, rfl, rfl, _, rfl, by simp [cursorTextureCalls]⟩

theorem createTexture_cursor (env : TickEnv) (t : LGPlugin) :
    CursorKept t (createTexture env t).2 := by
  unfold createTexture
  dsimp only
  cases hf : frameFormat t.type with
  | none => exact ⟨rfl, rfl, rfl, rfl, rfl, rfl, _, rfl, by simp [cursorTextureCalls]⟩
  | some fb =>
    obtain ⟨format, bpp⟩ := fb
    cases hn : env.frameTexCreate with
    | none =>
      exact ⟨rfl, rfl, rfl, rfl, rfl, rfl, _,
        by simp only [LGPlugin.emit, List.append_assoc]; rfl, by simp [cursorTextureCalls]⟩
    | some h =>
      exact ⟨rfl, rfl, rfl, rfl, rfl, rfl, _,
        by simp only [LGPlugin.emit, List.append_assoc]; rfl, by simp [cursorTextureCalls]⟩

theorem tickTexture_cursor (env : TickEnv) (t : LGPlugin) :
    CursorKept t (tickTexture env t).2 := by
  unfold tickTexture
  by_cases hc : t.texture = none ∨ t.formatVer ≠ env.frame.formatVer
  · rw [if_pos hc]
    dsimp only
    have h0 : CursorKept t
        { (t.emit [LGEvent.enterGraphics]) with
          formatVer := env.frame.formatVer, width := env.frame.width
          height := env.frame.height, type := env.frame.type } :=
      ⟨rfl, rfl, rfl, rfl, rfl, rfl, _, rfl, by simp [cursorTextureCalls]⟩
    exact (h0.trans (dropTexture_cursor _)).trans (createTexture_cursor env _)
  · rw [if_neg hc]
    exact CursorKept.refl t

theorem tickCopy_cursor (env : TickEnv) (t : LGPlugin) : CursorKept t (tickCopy env t) := by
  unfold tickCopy
  cases ht : t.texture with
  | none => exact CursorKept.emit t _ (by simp [cursorTextureCalls])
  | some h => exact ⟨rfl, rfl, rfl, rfl, rfl, rfl, _, rfl, by simp [cursorTextureCalls]⟩

theorem tickFrame_cursor (env : TickEnv) (t : LGPlugin) : CursorKept t (tickFrame env t) := by
  unfold tickFrame
  dsimp only
  split_ifs with h
  · exact (tickTexture_cursor env t).trans (tickCopy_cursor env _)
  · exact tickTexture_cursor env t

theorem tickQueue_cursor (env : TickEnv) (t : LGPlugin) : CursorKept t (tickQueue env t) := by
  have e1 : CursorKept t (t.emit [LGEvent.advanceToLast]) :=
    CursorKept.emit t _ (by simp [cursorTextureCalls])
  have e2 : CursorKept t ((t.emit [LGEvent.advanceToLast]).emit [LGEvent.clientProcess Chan.frame]) :=
    e1.trans (CursorKept.emit _ _ (by simp [cursorTextureCalls]))
  unfold tickQueue
  dsimp only
  split_ifs with h1 h2 h3
  · exact e1.trans (CursorKept.emit _ _ (by simp [cursorTextureCalls]))
  · exact e2.trans (CursorKept.emit _ _ (by simp [cursorTextureCalls]))
  · exact e2.trans ⟨rfl, rfl, rfl, rfl, rfl, rfl, _, rfl, by simp [cursorTextureCalls]⟩
  · exact e2.trans (tickFrame_cursor env _)

/-- A tick on a running session is the queue part run after the cursor block. -/
theorem lgVideoTick_running (env : TickEnv) (this : LGPlugin)
    (hrun : this.state = LGState.STATE_RUNNING) :
    lgVideoTick env this = tickQueue env (tickCursorDone env this) := by
  unfold lgVideoTick tickQueue tickCursorDone
  dsimp only
  rw [if_neg (by simp [hrun]), if_neg (by simp [LGPlugin.emit, hrun])]

/-- A tick on a session that is not running does nothing. -/
theorem lgVideoTick_idle (env : TickEnv) (this : LGPlugin)
    (hrun : this.state ≠ LGState.STATE_RUNNING) : lgVideoTick env this = this := by
  unfold lgVideoTick
  rw [if_pos hrun]

/-- The cursor block records the version it was given and does not write the
version counter. -/
theorem tickCursor_versions (env : TickEnv) (v : Nat) (t : LGPlugin) :
    (tickCursor env v t).cursorCurVer = v ∧ (tickCursor env v t).cursorVer = t.cursorVer := by
  unfold tickCursor
  cases hc : t.cursorTex <;> cases ht : t.cursor.type <;>
    simp [LGPlugin.emit, hc, ht]

/-- With the cursor version equal to the version of the cursor texture, the
start of a tick keeps the cursor. -/
theorem tickCursorDone_same (env : TickEnv) (this : LGPlugin)
    (hv : this.cursorVer = this.cursorCurVer) : CursorKept this (tickCursorDone env this) := by
  unfold tickCursorDone
  dsimp only
  rw [if_neg (by simp [LGPlugin.emit, hv])]
  exact ⟨rfl, rfl, rfl, rfl, rfl, rfl, _, rfl, by simp [cursorTextureCalls]⟩

/-- With a cursor version that differs, the start of a tick records it. -/
theorem tickCursorDone_rebuilt (env : TickEnv) (this : LGPlugin)
    (hv : this.cursorVer ≠ this.cursorCurVer) :
    (tickCursorDone env this).cursorCurVer = this.cursorVer ∧
    (tickCursorDone env this).cursorVer = this.cursorVer := by
  unfold tickCursorDone
  dsimp only
  rw [if_pos (by simpa [LGPlugin.emit] using hv)]
  exact tickCursor_versions env _ _

/-- After a tick on a running session the version of the cursor texture is the
cursor version the tick read, and the tick has not written the counter. -/
theorem lgVideoTick_versions (env : TickEnv) (this : LGPlugin)
    (hrun : this.state = LGState.STATE_RUNNING) :
    (lgVideoTick env this).cursorCurVer = this.cursorVer ∧
    (lgVideoTick env this).cursorVer = this.cursorVer := by
  rw [lgVideoTick_running env this hrun]
  obtain ⟨_, _, q3, q4, _, _, _⟩ := tickQueue_cursor env (tickCursorDone env this)
  rw [q3, q4]
  by_cases hv : this.cursorVer = this.cursorCurVer
  · obtain ⟨_, _, c3, c4, _, _, _⟩ := tickCursorDone_same env this hv
    rw [c3, c4]
    exact ⟨hv.symm, rfl⟩
  · exact tickCursorDone_rebuilt env this hv

/-- In any state, a tick that finds the cursor version equal to the version of
the cursor texture keeps the cursor. -/
theorem lgVideoTick_kept (env : TickEnv) (this : LGPlugin)
    (hv : this.cursorVer = this.cursorCurVer) : CursorKept this (lgVideoTick env this) := by
  by_cases hrun : this.state = LGState.STATE_RUNNING
  · rw [lgVideoTick_running env this hrun]
    exact (tickCursorDone_same env this hv).trans (tickQueue_cursor env _)
  · rw [lgVideoTick_idle env this hrun]
    exact CursorKept.refl this

/-- Any number of ticks from such a state keeps the cursor. -/
theorem lgVideoTicks_kept (envs : List TickEnv) :
    ∀ this : LGPlugin, this.cursorVer = this.cursorCurVer →
      CursorKept this (lgVideoTicks envs this) := by
  induction envs with
  | nil => intro this _; exact CursorKept.refl this
  | cons env rest ih =>
    intro this hv
    have h1 := lgVideoTick_kept env this hv
    have hv' : (lgVideoTick env this).cursorVer = (lgVideoTick env this).cursorCurVer := by
      obtain ⟨_, _, k3, k4, _, _, _⟩ := h1
      rw [k3, k4]; exact hv
    have h2 := ih (lgVideoTick env this) hv'
    show CursorKept this (lgVideoTicks rest (lgVideoTick env this))
    exact h1.trans h2

/-! ### C11 -/

/-- C11: for a plugin in `STATE_RUNNING` whose `cursorVer` equals
`cursorCurVer`, the calls that `lgVideoTick` makes include no
`gs_texture_create` or `gs_texture_destroy` for the cursor texture, and
`cursorTex`, `cursorMono`, `cursorCurVer`, `cursorRect.cx` and `cursorRect.cy`
are unchanged.  A tick that finds the versions different leaves `cursorCurVer`
equal to the `cursorVer` it read; no tick writes `cursorVer`.  So after any
tick, any number of further ticks with no shape message in between make no
`gs_texture_create` or `gs_texture_destroy` call for the cursor texture and
leave `cursorTex` as it is. -/
theorem C11_cursor_version_gating (env : TickEnv) (envs : List TickEnv) (this : LGPlugin)
    (hrun : this.state = LGState.STATE_RUNNING) :
    (this.cursorVer = this.cursorCurVer →
      (∃ evs, (lgVideoTick env this).log = this.log ++ evs ∧ cursorTextureCalls evs = 0) ∧
      (lgVideoTick env this).cursorTex = this.cursorTex ∧
      (lgVideoTick env this).cursorMono = this.cursorMono ∧
      (lgVideoTick env this).cursorCurVer = this.cursorCurVer ∧
      (lgVideoTick env this).cursorRect.cx = this.cursorRect.cx ∧
      (lgVideoTick env this).cursorRect.cy = this.cursorRect.cy) ∧
    (this.cursorVer ≠ this.cursorCurVer →
      (lgVideoTick env this).cursorCurVer = this.cursorVer) ∧
    (lgVideoTick env this).cursorVer = this.cursorVer ∧
    (∃ evs, (lgVideoTicks envs (lgVideoTick env this)).log
        = (lgVideoTick env this).log ++ evs ∧ cursorTextureCalls evs = 0) ∧
    (lgVideoTicks envs (lgVideoTick env this)).cursorTex = (lgVideoTick env this).cursorTex ∧
    (lgVideoTicks envs (lgVideoTick env this)).cursorCurVer = this.cursorVer := by
  obtain ⟨v1, v2⟩ := lgVideoTick_versions env this hrun
  have hv' : (lgVideoTick env this).cursorVer = (lgVideoTick env this).cursorCurVer := by
    rw [v1, v2]
  obtain ⟨k1, _, k3, _, _, _, k7⟩ := lgVideoTicks_kept envs (lgVideoTick env this) hv'
  refine ⟨?_, fun _ => v1, v2, k7, k1, by rw [k3, v1]⟩
  intro hv
  obtain ⟨c1, c2, c3, _, c5, c6, c7⟩ := lgVideoTick_kept env this hv
  exact ⟨c7, c1, c2, c3, c5, c6⟩

theorem C11_cursor_version_gating_witness :
    pendingPlugin.state = LGState.STATE_RUNNING ∧
    pendingPlugin.cursorVer ≠ pendingPlugin.cursorCurVer ∧
    cursorTextureCalls (lgVideoTick
      (sampleTick { formatVer := 1, type := FrameType.FRAME_TYPE_BGRA, width := 100,
                    height := 100, pitch := 400, offset := 0 } (some 8))
      pendingPlugin).log = 2 ∧
    (lgVideoTick
      (sampleTick { formatVer := 1, type := FrameType.FRAME_TYPE_BGRA, width := 100,
                    height := 100, pitch := 400, offset := 0 } (some 8))
      pendingPlugin).cursorTex = some 9 ∧
    (lgVideoTick
      (sampleTick { formatVer := 1, type := FrameType.FRAME_TYPE_BGRA, width := 100,
                    height := 100, pitch := 400, offset := 0 } (some 8))
      pendingPlugin).cursorCurVer = pendingPlugin.cursorVer ∧
    cursorTextureCalls (lgVideoTicks
      [sampleTick { formatVer := 1, type := FrameType.FRAME_TYPE_BGRA, width := 100,
                    height := 100, pitch := 400, offset := 0 } (some 8),
       sampleTick { formatVer := 2, type := FrameType.FRAME_TYPE_RGBA, width := 200,
                    height := 50, pitch := 800, offset := 0 } (some 8)]
      (lgVideoTick
        (sampleTick { formatVer := 1, type := FrameType.FRAME_TYPE_BGRA, width := 100,
                      height := 100, pitch := 400, offset := 0 } (some 8))
        pendingPlugin)).log = 2 ∧
    (lgVideoTicks
      [sampleTick { formatVer := 1, type := FrameType.FRAME_TYPE_BGRA, width := 100,
                    height := 100, pitch := 400, offset := 0 } (some 8),
       sampleTick { formatVer := 2, type := FrameType.FRAME_TYPE_RGBA, width := 200,
                    height := 50, pitch := 800, offset := 0 } (some 8)]
      (lgVideoTick
        (sampleTick { formatVer := 1, type := FrameType.FRAME_TYPE_BGRA, width := 100,
                      height := 100, pitch := 400, offset := 0 } (some 8))
        pendingPlugin)).cursorTex = some 9 ∧
    samplePlugin.cursorVer = samplePlugin.cursorCurVer ∧
    (lgVideoTick
      (sampleTick { formatVer := 1, type := FrameType.FRAME_TYPE_BGRA, width := 100,
                    height := 100, pitch := 400, offset := 0 } (some 8))
      samplePlugin).cursorTex = samplePlugin.cursorTex :=
  ⟨rfl, by decide, by decide, by decide,
    (C11_cursor_version_gating
      (sampleTick { formatVer := 1, type := FrameType.FRAME_TYPE_BGRA, width := 100,
                    height := 100, pitch := 400, offset := 0 } (some 8))
      [] pendingPlugin rfl).2.1 (by decide),
    by decide,
    by decide,
    rfl,
    ((C11_cursor_version_gating
      (sampleTick { formatVer := 1, type := FrameType.FRAME_TYPE_BGRA, width := 100,
                    height := 100, pitch := 400, offset := 0 } (some 8))
      [] samplePlugin rfl).1 rfl).2.1⟩

/-! ### C12 -/

/-- When the header size or the maximum frame size is a multiple of 16 (and the
sum does not wrap), slot 1 starts at or after the end of slot 0. -/
theorem slots_disjoint_of_aligned (H M : Nat) (hM : 1 ≤ M) (hnw : H + M + 0xF < 2 ^ 64)
    (hdiv : H % 16 = 0 ∨ M % 16 = 0) :
    dataOffsetOf H 0 M + M ≤ dataOffsetOf H 1 M ∧ dataOffsetOf H 0 M ≠ dataOffsetOf H 1 M := by
  have h0 : dataOffsetOf H 0 M = (H + 15) / 16 * 16 := by
    have := dataOffsetOf_nowrap H 0 M (by omega)
    simpa using this
  have h1 : dataOffsetOf H 1 M = (H + M + 15) / 16 * 16 := by
    have := dataOffsetOf_nowrap H 1 M (by omega)
    simpa using this
  rw [h0, h1]
  constructor <;> omega

/-- For every header size that is not a multiple of 16 there are maximum frame
sizes for which the two slots are at the same offset: every size up to the
padding that follows the header. -/
theorem slots_coincide_of_unaligned (H M : Nat) (hH : H % 16 ≠ 0) (hM : M ≤ 16 - H % 16)
    (hnw : H + 31 < 2 ^ 64) :
    dataOffsetOf H 0 M = dataOffsetOf H 1 M := by
  have h0 : dataOffsetOf H 0 M = (H + 15) / 16 * 16 := by
    have := dataOffsetOf_nowrap H 0 M (by omega)
    simpa using this
  have h1 : dataOffsetOf H 1 M = (H + M + 15) / 16 * 16 := by
    have := dataOffsetOf_nowrap H 1 M (by omega)
    simpa using this
  rw [h0, h1]
  omega

/-- C12 (the code at the failing inputs): with a 40-byte header on a 1000-byte
region and a maximum frame size of 100, the capacity check passes for both slot
indices, slot 0 is at offset 48 and slot 1 at offset 144, so the 100 bytes of
slot 0 reach 4 bytes into slot 1, and two successive `Process` calls publish
100-byte frames at 48 and at 144.  With a maximum frame size of 8 both slots
are at offset 48 and two successive calls publish at the same offset. -/
theorem C12_slots_overlap :
    (dataOffsetOf 40 0 100 + 100) % 2 ^ 64 ≤ availableOf 1000 40 ∧
    (dataOffsetOf 40 1 100 + 100) % 2 ^ 64 ≤ availableOf 1000 40 ∧
    dataOffsetOf 40 0 100 = 48 ∧ dataOffsetOf 40 1 100 = 144 ∧
    ¬ (dataOffsetOf 40 0 100 + 100 ≤ dataOffsetOf 40 1 100) ∧
    (oddService.run oddConsts
        [sampleEnv 100 smallFrame true, sampleEnv 100 smallFrame true]).map
      (fun c => (c.result, c.slot, c.after.header.dataPos, c.after.header.dataLen)) =
      [(some true, 0, 48, 100), (some true, 1, 144, 100)] ∧
    (dataOffsetOf 40 0 8 + 8) % 2 ^ 64 ≤ availableOf 1000 40 ∧
    (dataOffsetOf 40 1 8 + 8) % 2 ^ 64 ≤ availableOf 1000 40 ∧
    dataOffsetOf 40 0 8 = 48 ∧ dataOffsetOf 40 1 8 = 48 ∧
    (oddService.run oddConsts
        [sampleEnv 8 (fun _ _ => some { width := 2, height := 1, stride := 8, outSize := 8 })
           true,
         sampleEnv 8 (fun _ _ => some { width := 2, height := 1, stride := 8, outSize := 8 })
           true]).map
      (fun c => (c.result, c.slot, c.after.header.dataPos, c.after.header.dataLen)) =
      [(some true, 0, 48, 8), (some true, 1, 48, 8)] := by
  decide

end LookingGlass
